import Mathlib

/-!
Verification of the content-identity and idempotency model of the
Bizzal-Games daily content pipeline.

The definitions below are shallow embeddings of the Python sources under
`bin/core` and `bin/upload`: SHA-256 (`hashlib.sha256(...).hexdigest()`),
`slugify`, `clean_script_text`, `build_content_contract`
(`write_script_from_fact.py`), `minimal_validate` and the validate/route
tail of `main` (`make_atom.py`), `duplicate_publish`,
`build_publish_fingerprint` and the registry-guard portion of `main`
(`upload_youtube.py`), and the pick logic of `fill_picks.py` /
`pick_creature.py`.  Machine integers are `Nat` with explicit `% 2^32`;
fallible operations return `Option`.
-/

namespace BGP

/-! ### SHA-256 (model of Python's `hashlib.sha256(...).hexdigest()`) -/

def M32 : Nat := 4294967296

def w32 (x : Nat) : Nat := x % M32

/-- Right rotation of a 32-bit word. -/
def rotr (n x : Nat) : Nat := ((x >>> n) ||| (x <<< (32 - n))) % M32

def smallSigma0 (x : Nat) : Nat := (rotr 7 x) ^^^ (rotr 18 x) ^^^ (x >>> 3)

def smallSigma1 (x : Nat) : Nat := (rotr 17 x) ^^^ (rotr 19 x) ^^^ (x >>> 10)

def bigSigma0 (x : Nat) : Nat := (rotr 2 x) ^^^ (rotr 13 x) ^^^ (rotr 22 x)

def bigSigma1 (x : Nat) : Nat := (rotr 6 x) ^^^ (rotr 11 x) ^^^ (rotr 25 x)

def chF (x y z : Nat) : Nat := (x &&& y) ^^^ ((x ^^^ 4294967295) &&& z)

def majF (x y z : Nat) : Nat := (x &&& y) ^^^ (x &&& z) ^^^ (y &&& z)

/-- The 64 SHA-256 round constants of FIPS 180-4 (fractional parts of the
cube roots of the first 64 primes), in decimal. -/
def K256 : List Nat :=
  [1116352408, 1899447441, 3049323471, 3921009573, 961987163, 1508970993,
   2453635748, 2870763221, 3624381080, 310598401, 607225278, 1426881987,
   1925078388, 2162078206, 2614888103, 3248222580, 3835390401, 4022224774,
   264347078, 604807628, 770255983, 1249150122, 1555081692, 1996064986,
   2554220882, 2821834349, 2952996808, 3210313671, 3336571891, 3584528711,
   113926993, 338241895, 666307205, 773529912, 1294757372, 1396182291,
   1695183700, 1986661051, 2177026350, 2456956037, 2730485921, 2820302411,
   3259730800, 3345764771, 3516065817, 3600352804, 4094571909, 275423344,
   430227734, 506948616, 659060556, 883997877, 958139571, 1322822218,
   1537002063, 1747873779, 1955562222, 2024104815, 2227730452, 2361852424,
   2428436474, 2756734187, 3204031479, 3329325298]

/-- The initial hash value of FIPS 180-4 (fractional parts of the square
roots of the first 8 primes), in decimal. -/
def H256 : List Nat :=
  [1779033703, 3144134277, 1013904242, 2773480762,
   1359893119, 2600822924, 528734635, 1541459225]

/-- Big-endian 4-byte groups to 32-bit words. -/
def bytesToWords : List Nat → List Nat
  | a :: b :: c :: d :: rest => (a * 16777216 + b * 65536 + c * 256 + d) :: bytesToWords rest
  | _ => []

/-- Big-endian byte expansion of `n` over `width` bytes. -/
def natToBytes (n : Nat) : Nat → List Nat
  | 0 => []
  | w + 1 => natToBytes (n / 256) w ++ [n % 256]

/-- SHA-256 padding: `0x80`, zeros to 56 mod 64, then the 64-bit bit length. -/
def shaPad (msg : List Nat) : List Nat :=
  let L := msg.length
  let k := (119 - (L % 64)) % 64
  msg ++ [128] ++ List.replicate k 0 ++ natToBytes (8 * L) 8

/-- Split into 64-byte blocks (`fuel` bounds the number of blocks; structural
recursion so that the kernel can evaluate the definition). -/
def chunks64Go : Nat → List Nat → List (List Nat)
  | 0, _ => []
  | _, [] => []
  | fuel + 1, c :: rest => ((c :: rest).take 64) :: chunks64Go fuel ((c :: rest).drop 64)

/-- Split into 64-byte blocks. -/
def chunks64 (l : List Nat) : List (List Nat) := chunks64Go l.length l

/-- Message-schedule extension over the 16-word sliding window
`(w[i-16], ..., w[i-1])`: each step emits
`w[i] = sigma1(w[i-2]) + w[i-7] + sigma0(w[i-15]) + w[i-16]` and shifts. -/
def extendWGo :
    Nat → Nat × Nat × Nat × Nat × Nat × Nat × Nat × Nat ×
    Nat × Nat × Nat × Nat × Nat × Nat × Nat × Nat → List Nat
  | 0, _ => []
  | n + 1, (w0, w1, w2, w3, w4, w5, w6, w7, w8, w9, w10, w11, w12, w13, w14, w15) =>
    let nw := w32 (smallSigma1 w14 + w9 + smallSigma0 w1 + w0)
    nw :: extendWGo n (w1, w2, w3, w4, w5, w6, w7, w8, w9, w10, w11, w12, w13, w14, w15, nw)

/-- Append `count` words of the message schedule (the input is the 16-word
block, as produced by `bytesToWords`). -/
def extendW (w : List Nat) : Nat → List Nat :=
  fun n => w ++ extendWGo n
    (w.getD 0 0, w.getD 1 0, w.getD 2 0, w.getD 3 0, w.getD 4 0, w.getD 5 0,
     w.getD 6 0, w.getD 7 0, w.getD 8 0, w.getD 9 0, w.getD 10 0, w.getD 11 0,
     w.getD 12 0, w.getD 13 0, w.getD 14 0, w.getD 15 0)

/-- The 64 compression rounds. -/
def compressRounds :
    List (Nat × Nat) → Nat × Nat × Nat × Nat × Nat × Nat × Nat × Nat →
    Nat × Nat × Nat × Nat × Nat × Nat × Nat × Nat
  | [], st => st
  | (wi, ki) :: rest, (a, b, c, d, e, f, g, h) =>
    let t1 := w32 (h + bigSigma1 e + chF e f g + ki + wi)
    let t2 := w32 (bigSigma0 a + majF a b c)
    compressRounds rest (w32 (t1 + t2), a, b, c, w32 (d + t1), e, f, g)

def processBlock (H : List Nat) (block : List Nat) : List Nat :=
  let ws := extendW (bytesToWords block) 48
  let st := compressRounds (ws.zip K256)
    (H.getD 0 0, H.getD 1 0, H.getD 2 0, H.getD 3 0,
     H.getD 4 0, H.getD 5 0, H.getD 6 0, H.getD 7 0)
  match st with
  | (a, b, c, d, e, f, g, h) =>
    [w32 (H.getD 0 0 + a), w32 (H.getD 1 0 + b), w32 (H.getD 2 0 + c), w32 (H.getD 3 0 + d),
     w32 (H.getD 4 0 + e), w32 (H.getD 5 0 + f), w32 (H.getD 6 0 + g), w32 (H.getD 7 0 + h)]

def sha256Words (msg : List Nat) : List Nat :=
  (chunks64 (shaPad msg)).foldl processBlock H256

/-- The 256-bit digest as a natural number. -/
def sha256Nat (msg : List Nat) : Nat :=
  (sha256Words msg).foldl (fun acc w => acc * M32 + w) 0

/-- The lowercase hex digit for `n < 16` (48 is `'0'`, 87 + 10 is `'a'`). -/
def hexDigit (n : Nat) : Char :=
  if n < 10 then Char.ofNat (48 + n) else Char.ofNat (87 + n)

/-- Fixed-width lowercase hex rendering, most significant digit first. -/
def toHexPad (n : Nat) : Nat → List Char
  | 0 => []
  | w + 1 => toHexPad (n / 16) w ++ [hexDigit (n % 16)]

def sha256hexBytes (msg : List Nat) : String := ⟨toHexPad (sha256Nat msg) 64⟩

/-- UTF-8 encoding of a unicode scalar value. -/
def utf8Char (n : Nat) : List Nat :=
  if n < 128 then [n]
  else if n < 2048 then [192 + n / 64, 128 + n % 64]
  else if n < 65536 then [224 + n / 4096, 128 + (n / 64) % 64, 128 + n % 64]
  else [240 + n / 262144, 128 + (n / 4096) % 64, 128 + (n / 64) % 64, 128 + n % 64]

def utf8Bytes (s : String) : List Nat :=
  s.data.foldr (fun c acc => utf8Char c.toNat ++ acc) []

/-- `sha256_text` of `write_script_from_fact.py` / `make_atom.py`:
`hashlib.sha256(s.encode("utf-8")).hexdigest()`. -/
def sha256_text (s : String) : String := sha256hexBytes (utf8Bytes s)

/-! ### `slugify` (write_script_from_fact.py lines 107-110) -/

/-- Characters matched by Python's regex class `\s` on `str` patterns
(ASCII whitespace plus the Unicode white-space code points). -/
def pySpace (c : Char) : Bool :=
  decide (c ∈ [' ', '\t', '\n', '\r', '\x0b', '\x0c',
   '\x1c', '\x1d', '\x1e', '\x1f', '\x85', '\xa0',
   ' ', ' ', ' ', ' ', ' ', ' ', ' ',
   ' ', ' ', ' ', ' ', ' ', ' ', ' ',
   ' ', ' ', '　'])

/-- Python `str.strip()` with no argument: trim `\s` characters on both ends. -/
def pyStrip (l : List Char) : List Char :=
  ((l.dropWhile pySpace).reverse.dropWhile pySpace).reverse

/-- `[a-zA-Z0-9]`, the class kept by `slugify`'s first regex. -/
def isAsciiAlnum (c : Char) : Bool :=
  decide (97 ≤ c.toNat ∧ c.toNat ≤ 122) ||
  decide (65 ≤ c.toNat ∧ c.toNat ≤ 90) ||
  decide (48 ≤ c.toNat ∧ c.toNat ≤ 57)

/-- ASCII model of Python `str.lower()` on single characters. -/
def pyLower (c : Char) : Char :=
  if decide (65 ≤ c.toNat ∧ c.toNat ≤ 90) then Char.ofNat (c.toNat + 32) else c

/-- `re.sub(r"X+", r, s)` for a single-character class `X = p`:
each maximal run of `p`-characters becomes one `r`.  `inRun` records whether
the previous character was part of a run. -/
def collapseRuns (p : Char → Bool) (r : Char) : Bool → List Char → List Char
  | _, [] => []
  | inRun, c :: rest =>
    if p c then
      if inRun then collapseRuns p r true rest
      else r :: collapseRuns p r true rest
    else c :: collapseRuns p r false rest

/-- Python `str.strip("-")`. -/
def stripDashes (l : List Char) : List Char :=
  ((l.dropWhile (· == '-')).reverse.dropWhile (· == '-')).reverse

/-- `slugify` from `write_script_from_fact.py`:
`txt = re.sub(r"[^a-zA-Z0-9]+", "-", (s or "").strip().lower())`;
`txt = re.sub(r"-+", "-", txt).strip("-")`; `return txt or "na"`. -/
def slugifyList (l : List Char) : List Char :=
  let t1 := (pyStrip l).map pyLower
  let t2 := collapseRuns (fun c => !(isAsciiAlnum c)) '-' false t1
  let t3 := collapseRuns (fun c => c == '-') '-' false t2
  let t4 := stripDashes t3
  if t4.isEmpty then ['n', 'a'] else t4

def slugify (s : String) : String := ⟨slugifyList s.data⟩

/-! ### `clean_script_text` (write_script_from_fact.py lines 827-842) -/

/-- The punctuation class `[,.;:!?]` of `clean_script_text`'s regexes. -/
def isPunctD (c : Char) : Bool := decide (c ∈ [',', '.', ';', ':', '!', '?'])

/-- `re.sub(r"\s+([,.;:!?])", r"\1", txt)`: delete a maximal whitespace run
immediately followed by punctuation.  `fuel` bounds the scan length. -/
def dropWsBeforePunct : Nat → List Char → List Char
  | 0, l => l
  | _, [] => []
  | fuel + 1, c :: rest =>
    if pySpace c then
      match rest.dropWhile pySpace with
      | p :: rr =>
        if isPunctD p then p :: dropWsBeforePunct fuel rr
        else (c :: rest.takeWhile pySpace) ++ p :: dropWsBeforePunct fuel rr
      | [] => c :: rest.takeWhile pySpace
    else c :: dropWsBeforePunct fuel rest

/-- `re.sub(r"([,.;:!?])([^\s])", r"\1 \2", txt)`: insert a space between
punctuation and a following non-space character (the matched pair is
consumed, as in `re.sub`'s non-overlapping scan). -/
def spaceAfterPunct : List Char → List Char
  | [] => []
  | [c] => [c]
  | c :: d :: rest =>
    if isPunctD c && !(pySpace d) then c :: ' ' :: d :: spaceAfterPunct rest
    else c :: spaceAfterPunct (d :: rest)

/-- `re.sub(r"\.{2,}", ".", txt)`: collapse runs of two or more dots. -/
def collapseDots : Nat → List Char → List Char
  | 0, l => l
  | _, [] => []
  | fuel + 1, c :: rest =>
    if c == '.' && rest.head? == some '.' then
      '.' :: collapseDots fuel (rest.dropWhile (· == '.'))
    else c :: collapseDots fuel rest

/-- Final step of `clean_script_text`:
`if txt and txt[-1] not in ".!?": txt += "."`. -/
def ensureTerminal (l : List Char) : List Char :=
  match l.getLast? with
  | none => l
  | some c => if decide (c ∈ ['.', '!', '?']) then l else l ++ ['.']

/-- `clean_script_text` from `write_script_from_fact.py`. -/
def cleanList (l : List Char) : List Char :=
  let t1 := collapseRuns pySpace ' ' false (pyStrip l)
  if t1.isEmpty then [] else
  let t2 := t1.map (fun c => if c == '…' then '.' else c)
  let t3 := t2.filter (fun c => c != '*')
  let t4 := dropWsBeforePunct t3.length t3
  let t5 := spaceAfterPunct t4
  let t6 := collapseDots t5.length t5
  let t7 := pyStrip (collapseRuns pySpace ' ' false t6)
  ensureTerminal t7

def clean_script_text (s : String) : String := ⟨cleanList s.data⟩

/-! ### Content identity (`build_content_contract`, write_script_from_fact.py
lines 645-705) -/

/-- Python string slicing `s[:n]` (by characters). -/
def strTake (s : String) (n : Nat) : String := ⟨s.data.take n⟩

def pyStripStr (s : String) : String := ⟨pyStrip s.data⟩

/-- Python `x or d` for an optional string `x` (absent and `""` are falsy). -/
def pyOrStr (o : Option String) (d : String) : String :=
  match o with
  | some s => if s = "" then d else s
  | none => d

/-- The `fact` bundle fields read by the identity builder. -/
structure Fact where
  kind : Option String
  pk : Option Int
  name : Option String
  document : Option String

structure Voiceover where
  voice_pack_id : Option String
  tts_voice_id : Option String

structure Style where
  voice : Option String
  tone : Option String
  persona : Option String
  voiceover : Option Voiceover

/-- The atom fields read by `build_content_contract`. -/
structure CAtom where
  day : Option String
  category : Option String
  angle : Option String

/-- The `{hook, body, cta}` script object. -/
structure ScriptT where
  hook : String
  body : String
  cta : String

structure SegmentS where
  segment_id : String
  order : Nat
  text : String
  voice_track_id : String
  visual_asset_id : String

structure AssetContract where
  voice_pack_id : String
  tts_voice_id : String
  visual_pack_id : String
  timeline_id : String

structure Segments where
  hook : SegmentS
  body : SegmentS
  cta : SegmentS

structure ContentContract where
  content_id : String
  episode_id : String
  month_id : String
  month_bundle_id : String
  canonical_hash : String
  script_id : String
  asset_contract : AssetContract
  segments : Segments
  tags : List String

/-- `str(fact.get("pk") or fact.get("name") or "unknown")`: a pk of `0` or
`None` falls through to the name, an empty or absent name to `"unknown"`. -/
def factPkStr (f : Fact) : String :=
  match f.pk with
  | some n => if n = 0 then pyOrStr f.name "unknown" else toString n
  | none => pyOrStr f.name "unknown"

/-- `{"hook": 1, "body": 2, "cta": 3}[key]`. -/
def segOrder (key : String) : Nat :=
  if key = "hook" then 1 else if key = "body" then 2 else 3

/-- One iteration of the segment loop of `build_content_contract`. -/
def buildSegment (content_id key text : String) : SegmentS :=
  let segment_id := "seg-" ++ key ++ "-" ++ strTake (sha256_text (content_id ++ "|" ++ key)) 10
  let voice_track_id := "vox-" ++ key ++ "-" ++ strTake (sha256_text (segment_id ++ "|voice")) 10
  let visual_asset_id := "img-" ++ key ++ "-" ++ strTake (sha256_text (segment_id ++ "|visual")) 10
  { segment_id := segment_id, order := segOrder key, text := text,
    voice_track_id := voice_track_id, visual_asset_id := visual_asset_id }

/-- Ascending insertion (Python `sorted`, code-point order on strings). -/
def insertSorted (s : String) : List String → List String
  | [] => [s]
  | t :: rest => if decide (s ≤ t) then s :: t :: rest else t :: insertSorted s rest

def sortStrings (l : List String) : List String := l.foldr insertSorted []

def dedupGo (seen : List String) : List String → List String
  | [] => []
  | s :: rest => if seen.contains s then dedupGo seen rest else s :: dedupGo (s :: seen) rest

/-- `sorted({...})`: de-duplicate, then sort ascending. -/
def sortedSet (l : List String) : List String := sortStrings (dedupGo [] l)

/-- `build_content_contract(atom, script_id, script, fact, style)`.  `today`
models `datetime.now().strftime("%Y-%m-%d")`, used only when the atom has no
(truthy) `day`. -/
def build_content_contract (atom : CAtom) (script_id : String) (script : ScriptT)
    (fact : Fact) (style : Style) (today : String) : ContentContract :=
  let day := pyOrStr atom.day today
  let month_id := strTake day 7
  let category := slugify (pyOrStr atom.category "")
  let angle := slugify (pyOrStr atom.angle "")
  let voice := slugify (pyOrStr style.voice "friendly_vet")
  let tone := slugify (pyOrStr style.tone "neutral")
  let kind := slugify (pyOrStr fact.kind "unknown")
  let fact_pk := slugify (factPkStr fact)
  let canonical_base := day ++ "-" ++ category ++ "-" ++ kind ++ "-" ++ fact_pk
  let canonical_hash := sha256_text (canonical_base ++ "|" ++ script_id)
  let short_hash := strTake canonical_hash 12
  let content_id := "bgp-" ++ canonical_base ++ "-" ++ short_hash
  let episode_id := "ep-" ++ day ++ "-" ++ category ++ "-" ++ short_hash
  let month_bundle_id := "zine-" ++ month_id ++ "-" ++ strTake (sha256_text month_id) 8
  let segments : Segments :=
    { hook := buildSegment content_id "hook" script.hook
      body := buildSegment content_id "body" script.body
      cta := buildSegment content_id "cta" script.cta }
  let tags := sortedSet ["content_press", "shorts", month_id, category, angle, kind,
                         voice, tone, slugify (pyOrStr fact.document "")]
  let voiceover := (style.voiceover).getD ⟨none, none⟩
  { content_id := content_id
    episode_id := episode_id
    month_id := month_id
    month_bundle_id := month_bundle_id
    canonical_hash := canonical_hash
    script_id := script_id
    asset_contract :=
      { voice_pack_id := pyOrStr voiceover.voice_pack_id ("voice-" ++ voice)
        tts_voice_id := pyOrStr voiceover.tts_voice_id "alloy"
        visual_pack_id := "visual-" ++ category
        timeline_id := "timeline-" ++ strTake (sha256_text (content_id ++ "|timeline")) 10 }
    segments := segments
    tags := tags }

/-- `full_text = f"{hook.strip()}\nbody.strip()\ncta.strip()\n"` followed by
`sha256_text`, as computed at the end of `write_script_from_fact.py:main`
and recomputed by `make_atom.py:minimal_validate`. -/
def packScript (h b c : String) : String :=
  pyStripStr h ++ "\n" ++ pyStripStr b ++ "\n" ++ pyStripStr c ++ "\n"

def scriptIdOf (h b c : String) : String := sha256_text (packScript h b c)

/-- The content contract of the concrete sensitivity scenario of C5, for the
script whose hook is `"Alpha strike."`. -/
def contractAlpha : ContentContract :=
  build_content_contract ⟨some "2024-01-01", some "monster_tactic", some "how_it_wins"⟩
    (scriptIdOf "Alpha strike." "B." "C.") ⟨"Alpha strike.", "B.", "C."⟩
    ⟨some "creature", some 42, none, none⟩ ⟨none, none, none, none⟩ "t"

/-- The same atom after changing only the hook to `"Beta strike."`. -/
def contractBeta : ContentContract :=
  build_content_contract ⟨some "2024-01-01", some "monster_tactic", some "how_it_wins"⟩
    (scriptIdOf "Beta strike." "B." "C.") ⟨"Beta strike.", "B.", "C."⟩
    ⟨some "creature", some 42, none, none⟩ ⟨none, none, none, none⟩ "t"

/-- `clean_ai_style_text` (write_script_from_fact.py lines 845-885): the
first and last steps are `clean_script_text`; the middle transformations
(literal replacements, hook sentence-splitting and shortening, CTA trimming)
are abstracted as a function `mid`, since the output contract below holds
for every such middle. -/
def clean_ai_style_text (mid : String → String) (s : String) : String :=
  let txt := clean_script_text s
  if txt = "" then txt else clean_script_text (mid txt)

/-- The parsed `{hook, body, cta}` fields of an AI polish response
(`obj.get(...)` results; `none`/`""` fall back to the current script). -/
structure AiResponse where
  hook : Option String
  body : Option String
  cta : Option String

/-- The data path of `maybe_ai_polish_script` (write_script_from_fact.py
lines 518-645): when disabled or when the call fails, the input script is
returned; otherwise the candidate fields are `clean_ai_style_text` outputs,
the anti-generic gates may revert hook/cta to cleaned originals, and the
locked-token/blank/grounding gates (`accepted`) may reject the whole
candidate.  The network-dependent decisions are inputs. -/
def aiPolishScript (mid : String → String) (enabled : Bool) (resp : Option AiResponse)
    (genericHook genericCta : String → Bool) (accepted : Bool) (script : ScriptT) : ScriptT :=
  if !enabled then script else
  match resp with
  | none => script
  | some r =>
    let out : ScriptT :=
      { hook := clean_ai_style_text mid (pyOrStr r.hook script.hook)
        body := clean_ai_style_text mid (pyOrStr r.body script.body)
        cta := clean_ai_style_text mid (pyOrStr r.cta script.cta) }
    let out1 := if genericHook out.hook then
      { out with hook := clean_ai_style_text mid script.hook } else out
    let out2 := if genericCta out1.cta then
      { out1 with cta := clean_ai_style_text mid script.cta } else out1
    if accepted then out2 else script

/-- The script finalization tail of `write_script_from_fact.py:main` (lines
1532-1545): clean all three fields, optionally apply AI script polish, store
the script, polish the CTA (`aiCta` is its raw return; `none` models every
kept-deterministic path, which returns the current stripped CTA), re-clean
the CTA, and run the two encounter guards, whose replacement text is always
passed through `clean_script_text`. -/
def scriptPipeline (mid : String → String) (raw : ScriptT)
    (aiEnabled : Bool) (aiResp : Option AiResponse)
    (genericHook genericCta : String → Bool) (aiAccepted : Bool)
    (aiCta : Option String)
    (hookGuard : Bool) (guardHookText : String)
    (ctaGuard : Bool) (guardCtaText : String) : ScriptT :=
  let s1 : ScriptT :=
    { hook := clean_script_text raw.hook
      body := clean_script_text raw.body
      cta := clean_script_text raw.cta }
  let s2 := aiPolishScript mid aiEnabled aiResp genericHook genericCta aiAccepted s1
  let cta1 := match aiCta with
    | some c => c
    | none => pyStripStr s2.cta
  let s3 := { s2 with cta := clean_script_text cta1 }
  let s4 := if hookGuard then { s3 with hook := clean_script_text guardHookText } else s3
  let s5 := if ctaGuard then { s4 with cta := clean_script_text guardCtaText } else s4
  s5

/-! ### C10: the `clean_script_text` output invariant and the script
finalization pipeline of `write_script_from_fact.py:main` -/

/-- The output contract of `clean_script_text`: empty, or ending in terminal
sentence punctuation with no two consecutive whitespace characters. -/
def cleanInvariant (s : String) : Prop :=
  s.data = [] ∨
    ((∃ c, s.data.getLast? = some c ∧ (c = '.' ∨ c = '!' ∨ c = '?')) ∧
      List.Chain' (fun a b => ¬(pySpace a = true ∧ pySpace b = true)) s.data)

/-! ### JSON values and `minimal_validate` (make_atom.py lines 165-224) -/

/-- JSON values, as loaded by `json.load` from the atom and registry files. -/
inductive JVal where
  | null : JVal
  | bool : Bool → JVal
  | num : Int → JVal
  | str : String → JVal
  | arr : List JVal → JVal
  | obj : List (String × JVal) → JVal

/-- Python `==` restricted to the comparisons `minimal_validate` and
`duplicate_publish` perform: each has a string on one side whenever it is
evaluated (`expect` is a hex digest; `content.script_id == script_id` is
reached only after `script_id == expect` holds), and Python's `==` between a
string and any other JSON value is plain equality or `False`.  Container
against container never occurs on an evaluated comparison, and Python's
numeric cross-type equalities (`True == 1`) cannot arise against a string. -/
def jeqPrim : JVal → JVal → Bool
  | .null, .null => true
  | .bool a, .bool b => a == b
  | .num a, .num b => a == b
  | .str a, .str b => a == b
  | _, _ => false

/-- `d.get(k)` on a JSON object (`None`, i.e. absent, otherwise). -/
def jget : JVal → String → Option JVal
  | .obj kvs, k => (kvs.find? (fun kv => kv.1 == k)).map (fun kv => kv.2)
  | _, _ => none

def jgetD (a : JVal) (k : String) (d : JVal) : JVal := (jget a k).getD d

def isObj : JVal → Bool
  | .obj _ => true
  | _ => false

/-- Python truthiness of a JSON value. -/
def pyTruthy : JVal → Bool
  | .null => false
  | .bool b => b
  | .num n => n != 0
  | .str s => s ≠ ""
  | .arr xs => !xs.isEmpty
  | .obj kvs => !kvs.isEmpty

mutual

/-- `repr` of a JSON container (the recursive part of Python `str`). -/
def pyRepr : JVal → String
  | .null => "None"
  | .bool b => if b then "True" else "False"
  | .num n => toString n
  | .str s => "'" ++ s ++ "'"
  | .arr xs => "[" ++ pyReprItems xs ++ "]"
  | .obj kvs => "\x7b" ++ pyReprPairs kvs ++ "\x7d"

def pyReprItems : List JVal → String
  | [] => ""
  | [v] => pyRepr v
  | v :: w :: rest => pyRepr v ++ ", " ++ pyReprItems (w :: rest)

def pyReprPairs : List (String × JVal) → String
  | [] => ""
  | [kv] => "'" ++ kv.1 ++ "': " ++ pyRepr kv.2
  | kv :: kw :: rest => "'" ++ kv.1 ++ "': " ++ pyRepr kv.2 ++ ", " ++ pyReprPairs (kw :: rest)

end

/-- Python `str()` of a JSON value (non-recursive on scalars; containers
delegate to `pyRepr` and are only ever tested for non-blankness). -/
def pyStr : JVal → String
  | .null => "None"
  | .bool b => if b then "True" else "False"
  | .num n => toString n
  | .str s => s
  | .arr xs => "[" ++ pyReprItems xs ++ "]"
  | .obj kvs => "\x7b" ++ pyReprPairs kvs ++ "\x7d"

/-- The required top-level atom keys, in the order `minimal_validate`
checks them. -/
def required_top : List String :=
  ["day", "created_at", "category", "angle", "style", "picks", "fact", "script",
   "script_id", "content"]

/-- The required `content` keys, in check order. -/
def content_required : List String :=
  ["content_id", "episode_id", "month_id", "month_bundle_id", "canonical_hash",
   "script_id", "asset_contract", "segments", "tags"]

/-- The `for k in required: if k not in d` loop: first missing key. -/
def findMissing (d : JVal) : List String → Option String
  | [] => none
  | k :: ks => if (jget d k).isSome then findMissing d ks else some k

/-- `.strip()` called on a JSON value: `AttributeError` (modelled as `none`)
unless it is a string. -/
def pyStripAttr : JVal → Option String
  | .str s => some (pyStripStr s)
  | _ => none

/-- The `for k in ["hook","body","cta"]` blank check:
`k not in script or not str(script.get(k, "")).strip()`. -/
def blankCheckGo (script : JVal) : List String → Option String
  | [] => none
  | k :: ks =>
    if (jget script k).isNone || pyStripStr (pyStr (jgetD script k (.str ""))) = "" then some k
    else blankCheckGo script ks

/-- `not str(seg.get(f, "")).strip()`. -/
def segFieldBlank (seg : JVal) (f : String) : Bool :=
  pyStripStr (pyStr (jgetD seg f (.str ""))) == ""

/-- The segment checks; outer `none` models the `AttributeError` raised by
`segments.get(k)` on a truthy non-dict `segments`. -/
def segmentsCheckGo (segs : JVal) : List String → Option (Option String)
  | [] => some none
  | k :: ks =>
    match segs with
    | .obj _ =>
      match jget segs k with
      | some (.obj kvs) =>
        let seg : JVal := .obj kvs
        if segFieldBlank seg "segment_id" then some (some ("segment missing segment_id: " ++ k))
        else if segFieldBlank seg "voice_track_id" then
          some (some ("segment missing voice_track_id: " ++ k))
        else if segFieldBlank seg "visual_asset_id" then
          some (some ("segment missing visual_asset_id: " ++ k))
        else segmentsCheckGo segs ks
      | _ => some (some ("content.segments missing: " ++ k))
    | _ => none

/-- `minimal_validate` from `make_atom.py` (lines 165-224).  The result is
the `(ok, msg)` pair; `none` models an uncaught exception (`.strip()` or
`.get` on a non-string/non-dict). -/
def minimal_validate (atom : JVal) : Option (Bool × String) :=
  match findMissing atom required_top with
  | some k => some (false, "missing key: " ++ k)
  | none =>
    if ¬ isObj (jgetD atom "picks" .null) then some (false, "picks not dict")
    else if ¬ isObj (jgetD atom "fact" .null) then some (false, "fact not dict")
    else if ¬ isObj (jgetD atom "script" .null) then some (false, "script not dict")
    else if ¬ isObj (jgetD atom "content" .null) then some (false, "content not dict")
    else
      match blankCheckGo (jgetD atom "script" .null) ["hook", "body", "cta"] with
      | some k => some (false, "script missing/blank: " ++ k)
      | none =>
        match pyStripAttr (jgetD (jgetD atom "script" .null) "hook" (.str "")),
              pyStripAttr (jgetD (jgetD atom "script" .null) "body" (.str "")),
              pyStripAttr (jgetD (jgetD atom "script" .null) "cta" (.str "")) with
        | some h, some b, some c =>
          if ¬ jeqPrim (jgetD atom "script_id" .null)
              (.str (sha256_text (h ++ "\n" ++ b ++ "\n" ++ c ++ "\n"))) then
            some (false, "script_id does not match script content")
          else
            match findMissing (jgetD atom "content" .null) content_required with
            | some k => some (false, "content missing key: " ++ k)
            | none =>
              if ¬ jeqPrim (jgetD (jgetD atom "content" .null) "script_id" .null)
                  (jgetD atom "script_id" .null) then
                some (false, "content.script_id does not match script_id")
              else
                match segmentsCheckGo
                    (if pyTruthy (jgetD (jgetD atom "content" .null) "segments" .null) then
                      jgetD (jgetD atom "content" .null) "segments" .null else .obj [])
                    ["hook", "body", "cta"] with
                | some (some msg) => some (false, msg)
                | some none => some (true, "ok")
                | none => none
        | _, _, _ => none

/-- The outcome of the validate-and-route tail of `make_atom.py:main`
(lines 303-319): move to `validated/` and exit 0, or append an error record,
move to `failed/` and exit 2; `crashed` models an uncaught exception. -/
inductive RouteResult where
  | validated : JVal → RouteResult
  | failed : JVal → Nat → RouteResult
  | crashed : RouteResult

/-- `atom.setdefault("errors", []).append({"at": now, "error": msg})`:
appends to an existing list value, creates the key at the end of the dict
otherwise, and raises (`none`) on a non-list `errors` value. -/
def appendError (atom : JVal) (now msg : String) : Option JVal :=
  let errRec : JVal := .obj [("at", .str now), ("error", .str msg)]
  match atom with
  | .obj kvs =>
    match jget atom "errors" with
    | some (.arr xs) =>
      some (.obj (kvs.map (fun kv =>
        if kv.1 == "errors" then (kv.1, .arr (xs ++ [errRec])) else kv)))
    | some _ => none
    | none => some (.obj (kvs ++ [("errors", .arr [errRec])]))
  | _ => none

/-- The validate-and-route tail of `make_atom.py:main`. -/
def routeAtom (atom : JVal) (now : String) : RouteResult :=
  match minimal_validate atom with
  | some (true, _) => .validated atom
  | some (false, msg) =>
    match appendError atom now msg with
    | some atom' => .failed atom' 2
    | none => .crashed
  | none => .crashed

/-- A fully valid atom (its `script_id` is the hash of the packed script). -/
def validAtomX : JVal :=
  .obj [("day", .str "2024-01-01"), ("created_at", .str "t"),
        ("category", .str "monster_tactic"), ("angle", .str "how_it_wins"),
        ("style", .obj []), ("picks", .obj []), ("fact", .obj []),
        ("script", .obj [("hook", .str "H."), ("body", .str "B."), ("cta", .str "C.")]),
        ("script_id", .str (sha256_text "H.\nB.\nC.\n")),
        ("content", .obj [("content_id", .str "cid"), ("episode_id", .str "eid"),
          ("month_id", .str "2024-01"), ("month_bundle_id", .str "mb"),
          ("canonical_hash", .str "ch"), ("script_id", .str (sha256_text "H.\nB.\nC.\n")),
          ("asset_contract", .obj []),
          ("segments", .obj [
            ("hook", .obj [("segment_id", .str "s1"), ("voice_track_id", .str "v1"),
              ("visual_asset_id", .str "i1")]),
            ("body", .obj [("segment_id", .str "s2"), ("voice_track_id", .str "v2"),
              ("visual_asset_id", .str "i2")]),
            ("cta", .obj [("segment_id", .str "s3"), ("voice_track_id", .str "v3"),
              ("visual_asset_id", .str "i3")])]),
          ("tags", .arr [])])]

/-- `validAtomX` with its `script_id` corrupted. -/
def corruptAtomX : JVal :=
  .obj [("day", .str "2024-01-01"), ("created_at", .str "t"),
        ("category", .str "monster_tactic"), ("angle", .str "how_it_wins"),
        ("style", .obj []), ("picks", .obj []), ("fact", .obj []),
        ("script", .obj [("hook", .str "H."), ("body", .str "B."), ("cta", .str "C.")]),
        ("script_id", .str "deadbeef"),
        ("content", .obj [("content_id", .str "cid"), ("episode_id", .str "eid"),
          ("month_id", .str "2024-01"), ("month_bundle_id", .str "mb"),
          ("canonical_hash", .str "ch"), ("script_id", .str "deadbeef"),
          ("asset_contract", .obj []),
          ("segments", .obj [
            ("hook", .obj [("segment_id", .str "s1"), ("voice_track_id", .str "v1"),
              ("visual_asset_id", .str "i1")]),
            ("body", .obj [("segment_id", .str "s2"), ("voice_track_id", .str "v2"),
              ("visual_asset_id", .str "i2")]),
            ("cta", .obj [("segment_id", .str "s3"), ("voice_track_id", .str "v3"),
              ("visual_asset_id", .str "i3")])]),
          ("tags", .arr [])])]


/-! ### Uploader / publish-registry guard (upload_youtube.py) -/

/-- Scalar JSON values: the value types appearing in a publish fingerprint
(`fact_pk` is an integer primary key, or absent). -/
inductive JPrim where
  | null : JPrim
  | bool : Bool → JPrim
  | num : Int → JPrim
  | str : String → JPrim

def jvalOfPrim : JPrim → JVal
  | .null => .null
  | .bool b => .bool b
  | .num n => .num n
  | .str s => .str s

/-- JSON string escaping as performed by `json.dumps` (ensure_ascii=False). -/
def jsonEscapeChar (c : Char) : List Char :=
  if c = '"' then ['\\', '"']
  else if c = '\\' then ['\\', '\\']
  else if c = '\n' then ['\\', 'n']
  else if c = '\t' then ['\\', 't']
  else if c = '\r' then ['\\', 'r']
  else if c = '\x08' then ['\\', 'b']
  else if c = '\x0c' then ['\\', 'f']
  else if c.toNat < 32 then '\\' :: 'u' :: toHexPad c.toNat 4
  else [c]

def jsonEscape (s : String) : String :=
  ⟨s.data.foldr (fun c acc => jsonEscapeChar c ++ acc) []⟩

def jdumpPrim : JPrim → String
  | .null => "null"
  | .bool b => if b then "true" else "false"
  | .num n => toString n
  | .str s => "\"" ++ jsonEscape s ++ "\""

def insertKV (kv : String × JPrim) : List (String × JPrim) → List (String × JPrim)
  | [] => [kv]
  | kw :: rest => if decide (kv.1 ≤ kw.1) then kv :: kw :: rest else kw :: insertKV kv rest

def sortKVs (l : List (String × JPrim)) : List (String × JPrim) := l.foldr insertKV []

/-- `json.dumps(d, sort_keys=True, ensure_ascii=False)` for a flat object
(default separators `", "` and `": "`). -/
def jdumpObjSorted (kvs : List (String × JPrim)) : String :=
  "\x7b" ++ String.intercalate ", " ((sortKVs kvs).map (fun kv =>
    "\"" ++ jsonEscape kv.1 ++ "\": " ++ jdumpPrim kv.2)) ++ "\x7d"

/-- The atom fields read by `build_publish_fingerprint` and `main` of
`upload_youtube.py` (content-identity and script fields are strings by
construction of the contract; `fact_pk` is a JSON scalar). -/
structure UAtom where
  category : Option String
  angle : Option String
  content_id : Option String
  canonical_hash : Option String
  script_id : Option String
  content_script_id : Option String
  fact_kind : Option String
  fact_name : Option String
  fact_pk : JPrim
  hook : Option String
  body : Option String
  cta : Option String

/-- `build_publish_fingerprint` (upload_youtube.py lines 64-91): the
canonical sorted-key JSON of the identity fields plus the video path and
content hash, and its SHA-256. -/
def build_publish_fingerprint (atom : UAtom) (day : String)
    (videoPath videoSha : String) : String × List (String × JPrim) :=
  let fingerprint : List (String × JPrim) := [
    ("day", .str day),
    ("category", .str (pyOrStr atom.category "")),
    ("angle", .str (pyOrStr atom.angle "")),
    ("content_id", .str (pyOrStr atom.content_id "")),
    ("canonical_hash", .str (pyOrStr atom.canonical_hash "")),
    ("script_id", .str (pyOrStr atom.script_id (pyOrStr atom.content_script_id ""))),
    ("fact_kind", .str (pyOrStr atom.fact_kind "")),
    ("fact_pk", atom.fact_pk),
    ("fact_name", .str (pyStripStr (pyOrStr atom.fact_name ""))),
    ("hook", .str (pyStripStr (pyOrStr atom.hook ""))),
    ("body", .str (pyStripStr (pyOrStr atom.body ""))),
    ("cta", .str (pyStripStr (pyOrStr atom.cta ""))),
    ("video_path", .str videoPath),
    ("video_sha256", .str videoSha)]
  (sha256_text (jdumpObjSorted fingerprint), fingerprint)

/-- `registry.get("items") or []` (non-list values yield no matches). -/
def registryItems (registry : JVal) : List JVal :=
  match jget registry "items" with
  | some (.arr xs) => xs
  | _ => []

/-- `duplicate_publish` (upload_youtube.py lines 92-100): first registry item
(skipping non-dicts) whose `publish_hash` equals the computed hash, or whose
`content_id` equals the atom's non-empty content_id. -/
def duplicate_publish (registry : JVal) (publish_hash content_id : String) : Option JVal :=
  (registryItems registry).find? (fun item =>
    isObj item &&
      (jeqPrim (jgetD item "publish_hash" .null) (.str publish_hash) ||
        (content_id != "" && jeqPrim (jgetD item "content_id" .null) (.str content_id))))

/-- `str(prior.get("youtube_video_id") or "")`. -/
def priorVid (prior : JVal) : String :=
  if pyTruthy (jgetD prior "youtube_video_id" .null) then
    pyStr (jgetD prior "youtube_video_id" .null) else ""

def priorUrlOf (prior : JVal) : String :=
  if priorVid prior = "" then "(unknown)"
  else "https://www.youtube.com/watch?v=" ++ priorVid prior

def dupErrLine (day content_id hash url : String) : String :=
  "ERROR: duplicate publish blocked. day=" ++ day ++ " content_id=" ++
    (if content_id = "" then "(none)" else content_id) ++ " hash=" ++ strTake hash 16 ++
    " prior_video=" ++ url

def overrideHint : String := "Set BIZZAL_ALLOW_DUPLICATE_PUBLISH=1 to override intentionally."

/-- The registry record appended after a successful upload
(upload_youtube.py lines 315-330). -/
def publishEntry (now day content_id publish_hash vid videoSha videoPath : String)
    (fingerprint : List (String × JPrim)) : JVal :=
  .obj [("published_utc", .str now), ("day", .str day), ("content_id", .str content_id),
        ("publish_hash", .str publish_hash), ("youtube_video_id", .str vid),
        ("youtube_url", .str ("https://www.youtube.com/watch?v=" ++ vid)),
        ("video_sha256", .str videoSha), ("video_path", .str videoPath),
        ("fingerprint", .obj (fingerprint.map (fun kv => (kv.1, jvalOfPrim kv.2))))]

/-- `registry.setdefault("items", []); registry["items"].append(entry)`:
appends to the items list, creating it at the end when absent; a non-list
`items` value raises (`none`). -/
def setItemsAppend (registry : JVal) (entry : JVal) : Option JVal :=
  match registry with
  | .obj kvs =>
    match jget registry "items" with
    | some (.arr xs) =>
      some (.obj (kvs.map (fun kv =>
        if kv.1 == "items" then (kv.1, .arr (xs ++ [entry])) else kv)))
    | some _ => none
    | none => some (.obj (kvs ++ [("items", .arr [entry])]))
  | _ => none

/-- The outcome of one `upload_youtube.py:main` run past atom/video loading:
exit code, final registry contents, whether the external upload call was
made, and the stderr lines produced. -/
structure UploadOutcome where
  exitCode : Nat
  registry : JVal
  uploaded : Bool
  stderrLines : List String

/-- The post-duplicate-check part of `main`: attempt the upload
(`uploadResult` carries the external call's video id or exception text) and
append the registry record on success. -/
def uploadProceed (day videoPath videoSha publish_hash content_id : String)
    (fingerprint : List (String × JPrim)) (registry : JVal)
    (uploadResult : Except String String) (now : String) : Option UploadOutcome :=
  match uploadResult with
  | .error e =>
    some { exitCode := 4, registry := registry, uploaded := false,
           stderrLines := ["ERROR: upload failed: " ++ e] }
  | .ok vid =>
    if vid = "" then
      some { exitCode := 5, registry := registry, uploaded := true,
             stderrLines := ["ERROR: upload returned no video id"] }
    else
      match setItemsAppend registry
          (publishEntry now day content_id publish_hash vid videoSha videoPath fingerprint) with
      | some registry2 =>
        some { exitCode := 0, registry := registry2, uploaded := true, stderrLines := [] }
      | none => none

/-- The registry-guard portion of `upload_youtube.py:main` (lines 266-332):
compute the publish fingerprint, consult the registry, abort with exit 6
before uploading on a duplicate unless the override flag is set, and append
the new record after a successful upload. -/
def uploadMain (atom : UAtom) (day videoPath videoSha : String) (registry : JVal)
    (allowDuplicate : Bool) (uploadResult : Except String String) (now : String) :
    Option UploadOutcome :=
  match duplicate_publish registry (build_publish_fingerprint atom day videoPath videoSha).1
      (pyStripStr (pyOrStr atom.content_id "")) with
  | some prior =>
    if allowDuplicate then
      uploadProceed day videoPath videoSha
        (build_publish_fingerprint atom day videoPath videoSha).1
        (pyStripStr (pyOrStr atom.content_id ""))
        (build_publish_fingerprint atom day videoPath videoSha).2 registry uploadResult now
    else
      some { exitCode := 6, registry := registry, uploaded := false,
             stderrLines := [dupErrLine day (pyStripStr (pyOrStr atom.content_id ""))
               (build_publish_fingerprint atom day videoPath videoSha).1 (priorUrlOf prior),
               overrideHint] }
  | none =>
    uploadProceed day videoPath videoSha
      (build_publish_fingerprint atom day videoPath videoSha).1
      (pyStripStr (pyOrStr atom.content_id ""))
      (build_publish_fingerprint atom day videoPath videoSha).2 registry uploadResult now

/-! ### Pickers (`fill_picks.py`, `pick_creature.py`) and their file effects -/

/-- The seed string of `pick_creature.py:main`:
`random.seed(f"{day}|{cat}|creature")`. -/
def pickCreatureSeed (day cat : String) : String := day ++ "|" ++ cat ++ "|creature"

/-- `random.choice(pks)` after `random.seed(seedStr)`, the draw of
`pick_creature.py`: `rng` maps the seed string and candidate count to the
drawn index (the Mersenne-Twister internals are irrelevant to the claims,
which concern which seed feeds the generator). -/
def pickCreaturePk (rng : String → Nat → Nat) (day cat : String) (pks : List JVal) :
    Option JVal :=
  if pks.isEmpty then none
  else pks.get? (rng (pickCreatureSeed day cat) pks.length % pks.length)

/-- `fill_picks.py`'s draw: `main` calls `random.seed()` with NO argument, so
`pick_pk`'s `random.choice(pks)` depends on the OS entropy seeding, not on
the day or category (which do not even reach the generator). -/
def fillPicksPk (rng : Nat → Nat → Nat) (entropy : Nat) (pks : List JVal) : Option JVal :=
  if pks.isEmpty then none
  else pks.get? (rng entropy pks.length % pks.length)

/-- `[r.get("pk") for r in records if isinstance(r, dict) and r.get("pk") is
not None]` (pick_creature.py line 88; same shape as `fixture_pks`). -/
def creaturePks (records : JVal) : List JVal :=
  match records with
  | .arr recs => recs.filterMap (fun r =>
      match jget r "pk" with
      | some .null => none
      | some v => some v
      | none => none)
  | _ => []

/-- A file-system fragment: path ↦ loaded JSON contents. -/
abbrev FS := List (String × JVal)

def fsGet (fs : FS) (p : String) : Option JVal :=
  (fs.find? (fun e => e.1 == p)).map (fun e => e.2)

/-- `atomic_write_json` (write-temp-then-`os.replace`): replace or create. -/
def fsSet (fs : FS) (p : String) (v : JVal) : FS :=
  if (fs.find? (fun e => e.1 == p)).isSome then
    fs.map (fun e => if e.1 == p then (e.1, v) else e)
  else fs ++ [(p, v)]

def pyLowerStr (s : String) : String := ⟨s.data.map pyLower⟩

/-- `atom.setdefault("picks", {}); atom["picks"]["creature_pk"] = pk`
(`none` models the crash on a non-dict atom or non-dict `picks`). -/
def setCreaturePk (atom : JVal) (pk : JVal) : Option JVal :=
  match atom with
  | .obj kvs =>
    match jget atom "picks" with
    | some (.obj pkvs) =>
      some (.obj (kvs.map (fun kv =>
        if kv.1 == "picks" then
          (kv.1, .obj (if (pkvs.find?
                (fun e => e.1 == "creature_pk")).isSome then
              pkvs.map (fun e => if e.1 == "creature_pk" then (e.1, pk) else e)
            else pkvs ++ [("creature_pk", pk)]))
        else kv)))
    | some _ => none
    | none => some (.obj (kvs ++ [("picks", .obj [("creature_pk", pk)])]))
  | _ => none

/-- `pick_creature.py:main` past config resolution, over an explicit file
system.  `weakCand` abstracts `weak_moral_choice_candidate` (it only filters
the candidate list and touches no file).  The script first binds `path` to
the atom file, later RE-BINDS `path` to the dataset file (line 90), and its
final `atomic_write_json(path, atom)` therefore writes the updated atom over
the DATASET file, leaving the atom file untouched. -/
def pickCreatureRun (rng : String → Nat → Nat) (weakCand : JVal → Bool)
    (day atomPath datasetPath : String) (fs : FS) : Nat × FS :=
  match fsGet fs atomPath with
  | none => (1, fs)
  | some atom =>
    if ¬(jeqPrim (jgetD atom "category" .null) (.str "monster_tactic") ||
         jeqPrim (jgetD atom "category" .null) (.str "encounter_seed")) = true then (3, fs)
    else
      match fsGet fs datasetPath with
      | none => (1, fs)
      | some records =>
        match pyStripAttr (if pyTruthy (jgetD atom "angle" .null) then
            jgetD atom "angle" .null else .str "") with
        | none => (1, fs)
        | some angleStripped =>
          let pks0 := creaturePks records
          let pks :=
            if jeqPrim (jgetD atom "category" .null) (.str "encounter_seed") &&
                (pyLowerStr angleStripped == "moral_choice") then
              let filtered :=
                match records with
                | .arr recs => recs.filterMap (fun r =>
                    match jget r "pk" with
                    | some .null => none
                    | some v => if weakCand r then none else some v
                    | none => none)
                | _ => []
              if filtered.isEmpty then pks0 else filtered
            else pks0
          if pks.isEmpty then (1, fs)
          else
            match setCreaturePk atom
                ((pks.get? (rng (pickCreatureSeed day (pyStr (jgetD atom "category" .null)))
                  pks.length % pks.length)).getD .null) with
            | none => (1, fs)
            | some atom2 => (0, fsSet fs datasetPath atom2)

def c7AtomPath : String := "data/atoms/incoming/2024-01-01.json"

def c7DatasetPath : String := "reference/active_srd/Creature.json"

def c7Atom : JVal := .obj [("day", .str "2024-01-01"),
  ("category", .str "monster_tactic"), ("picks", .obj [])]

def c7Dataset : JVal := .arr [.obj [("model", .str "api.creature"),
  ("pk", .num 7), ("fields", .obj [("name", .str "Goblin")])]]

def c7FS : FS := [(c7AtomPath, c7Atom), (c7DatasetPath, c7Dataset)]

def c7AtomAfter : JVal := .obj [("day", .str "2024-01-01"),
  ("category", .str "monster_tactic"), ("picks", .obj [("creature_pk", .num 7)])]

/-- A registry item published earlier with the same content_id. -/
def regItemX : JVal :=
  .obj [("content_id", .str "cid-x"), ("youtube_video_id", .str "VID1"),
        ("publish_hash", .str "h0")]

def regX : JVal := .obj [("items", .arr [regItemX])]

/-- The upload-time view of a concrete atom whose content_id collides with
`regItemX`. -/
def uAtomX : UAtom :=
  ⟨some "monster_tactic", some "how_it_wins", some "cid-x", some "ch", some "sid",
   none, some "creature", some "Goblin", .num 42, some "H.", some "B.", some "C."⟩


set_option maxRecDepth 10000

/-- FIPS 180-4 test vector: digest of the empty message. -/
theorem sha256_empty_vector :
    sha256_text "" = "e3b0c44298fc1c149afbf4c8996fb92427ae41e4649b934ca495991b7852b855" := by
  decide

/-- FIPS 180-4 test vector: digest of `"abc"`. -/
theorem sha256_abc_vector :
    sha256_text "abc" = "ba7816bf8f01cfea414140de5dae2223b00361a396177a9cb410ff61f20015ad" := by
  decide

/-- Evaluation checks for `slugify` and `clean_script_text` against the
Python implementations. -/
theorem slugify_examples :
    slugify "monster_tactic" = "monster-tactic" ∧
    slugify "" = "na" ∧
    slugify "  Hello,  World!! " = "hello-world" ∧
    slugify "--a--b--" = "a-b" ∧
    clean_script_text "  hello   world " = "hello world." ∧
    clean_script_text "Hi ,  there.. ok" = "Hi, there. . ok." ∧
    clean_script_text " * " = "" ∧
    clean_script_text "a…b" = "a. b." := by
  decide

/-- Evaluation check of the contract pipeline on the C1 scenario inputs
(expected value computed independently with `hashlib`). -/
theorem content_contract_example :
    (build_content_contract
      ⟨some "2024-01-01", some "monster_tactic", some "how_it_wins"⟩
      "s" ⟨"h", "b", "c"⟩ ⟨some "creature", some 42, some "Goblin", none⟩
      ⟨none, none, none, none⟩ "2099-01-01").content_id =
    "bgp-2024-01-01-monster-tactic-creature-42-9991463e4e3e" := by
  decide

theorem strAppend_assoc (a b c : String) : a ++ b ++ c = a ++ (b ++ c) := by
  cases a with
  | mk la =>
    cases b with
    | mk lb =>
      cases c with
      | mk lc =>
        show String.mk ((la ++ lb) ++ lc) = String.mk (la ++ (lb ++ lc))
        rw [List.append_assoc]

theorem w32_lt (x : Nat) : w32 x < M32 := Nat.mod_lt _ (by decide)

theorem processBlock_mem_lt (H block : List Nat) : ∀ x ∈ processBlock H block, x < M32 := by
  simp only [processBlock]
  rcases compressRounds ((extendW (bytesToWords block) 48).zip K256)
      (H.getD 0 0, H.getD 1 0, H.getD 2 0, H.getD 3 0,
       H.getD 4 0, H.getD 5 0, H.getD 6 0, H.getD 7 0) with
    ⟨a, b, c, d, e, f, g, h⟩
  intro x hx
  simp only [List.mem_cons, List.not_mem_nil, or_false] at hx
  rcases hx with h' | h' | h' | h' | h' | h' | h' | h' <;> exact h' ▸ w32_lt _

theorem processBlock_length (H block : List Nat) : (processBlock H block).length = 8 := by
  simp only [processBlock]
  rcases compressRounds ((extendW (bytesToWords block) 48).zip K256)
      (H.getD 0 0, H.getD 1 0, H.getD 2 0, H.getD 3 0,
       H.getD 4 0, H.getD 5 0, H.getD 6 0, H.getD 7 0) with
    ⟨a, b, c, d, e, f, g, h⟩
  rfl

theorem foldl_processBlock_spec (blocks : List (List Nat)) (H : List Nat)
    (hlen : H.length = 8) (hmem : ∀ x ∈ H, x < M32) :
    (blocks.foldl processBlock H).length = 8 ∧
      ∀ x ∈ blocks.foldl processBlock H, x < M32 := by
  induction blocks generalizing H with
  | nil => exact ⟨hlen, hmem⟩
  | cons b bs ih =>
    rw [List.foldl_cons]
    exact ih (processBlock H b) (processBlock_length H b) (processBlock_mem_lt H b)

theorem sha256Words_spec (msg : List Nat) :
    (sha256Words msg).length = 8 ∧ ∀ x ∈ sha256Words msg, x < M32 :=
  foldl_processBlock_spec _ H256 (by decide) (by decide)

theorem foldl_digits_lt (ws : List Nat) :
    ∀ acc B : Nat, (∀ w ∈ ws, w < M32) → acc < B →
      ws.foldl (fun a w => a * M32 + w) acc < B * M32 ^ ws.length := by
  induction ws with
  | nil => intro acc B _ hacc; simpa using hacc
  | cons w ws ih =>
    intro acc B hmem hacc
    have hw : w < M32 := hmem w (List.mem_cons_self _ _)
    have hstep : acc * M32 + w < (B * M32) := by
      calc acc * M32 + w < acc * M32 + M32 := by omega
        _ = (acc + 1) * M32 := by ring
        _ ≤ B * M32 := Nat.mul_le_mul_right _ hacc
    have := ih (acc * M32 + w) (B * M32) (fun x hx => hmem x (List.mem_cons_of_mem _ hx)) hstep
    simpa [List.length_cons, pow_succ, mul_assoc, mul_comm, mul_left_comm] using this

/-- The SHA-256 digest, read as a natural number, is below `2^256`. -/
theorem sha256Nat_lt (msg : List Nat) : sha256Nat msg < 2 ^ 256 := by
  obtain ⟨hlen, hmem⟩ := sha256Words_spec msg
  have := foldl_digits_lt (sha256Words msg) 0 1 hmem (by decide)
  rw [hlen] at this
  calc sha256Nat msg < 1 * M32 ^ 8 := this
    _ = 2 ^ 256 := by norm_num [M32]

/-- `(a ++ b).data = a.data ++ b.data`. -/
theorem strData_append (a b : String) : (a ++ b).data = a.data ++ b.data := rfl

theorem append_newline_inj (u : List Char) :
    ∀ (v rest rest' : List Char), '\n' ∉ u → '\n' ∉ v →
      u ++ '\n' :: rest = v ++ '\n' :: rest' → u = v ∧ rest = rest' := by
  induction u with
  | nil =>
    intro v rest rest' _ hv h
    cases v with
    | nil => simpa using h
    | cons vc vt =>
      exfalso
      simp only [List.nil_append, List.cons_append, List.cons.injEq] at h
      exact hv (h.1 ▸ List.mem_cons_self _ _)
  | cons uc ut ih =>
    intro v rest rest' hu hv h
    cases v with
    | nil =>
      exfalso
      simp only [List.nil_append, List.cons_append, List.cons.injEq] at h
      exact hu (h.1.symm ▸ List.mem_cons_self _ _)
    | cons vc vt =>
      simp only [List.cons_append, List.cons.injEq] at h
      have hrec := ih vt rest rest' (fun hm => hu (List.mem_cons_of_mem _ hm))
        (fun hm => hv (List.mem_cons_of_mem _ hm)) h.2
      exact ⟨by rw [h.1, hrec.1], hrec.2⟩

theorem toNat_ofNat_lower (n : Nat) (h1 : 65 ≤ n) (h2 : n ≤ 90) :
    (Char.ofNat (n + 32)).toNat = n + 32 := by
  have hv : (n + 32).isValidChar := by left; omega
  simp [Char.ofNat, hv, Char.ofNatAux, Char.toNat, UInt32.toNat, BitVec.toNat_ofNatLt]

theorem pyLower_idem (c : Char) : pyLower (pyLower c) = pyLower c := by
  by_cases h : 65 ≤ c.toNat ∧ c.toNat ≤ 90
  · have ht := toNat_ofNat_lower c.toNat h.1 h.2
    simp only [pyLower, decide_eq_true_eq, if_pos h, ht]
    rw [if_neg (by omega)]
  · simp only [pyLower, decide_eq_true_eq, if_neg h]

theorem pyLower_not_upper (c : Char) :
    ¬(65 ≤ (pyLower c).toNat ∧ (pyLower c).toNat ≤ 90) := by
  by_cases h : 65 ≤ c.toNat ∧ c.toNat ≤ 90
  · have ht := toNat_ofNat_lower c.toNat h.1 h.2
    simp only [pyLower, decide_eq_true_eq, if_pos h, ht]
    omega
  · simpa only [pyLower, decide_eq_true_eq, if_neg h] using h

theorem pyLower_fix (c : Char) (h : ¬(65 ≤ c.toNat ∧ c.toNat ≤ 90)) : pyLower c = c := by
  simp only [pyLower, decide_eq_true_eq, if_neg h]

theorem alnum_not_space (x : Char) (h : isAsciiAlnum x = true) : pySpace x = false := by
  cases hx : pySpace x
  · rfl
  · exfalso
    have hmem := of_decide_eq_true hx
    simp only [List.mem_cons, List.not_mem_nil, or_false] at hmem
    rcases hmem with rfl | rfl | rfl | rfl | rfl | rfl | rfl | rfl | rfl | rfl | rfl | rfl |
      rfl | rfl | rfl | rfl | rfl | rfl | rfl | rfl | rfl | rfl | rfl | rfl | rfl | rfl |
      rfl | rfl | rfl <;> exact absurd h (by decide)

theorem collapseRuns_cons (p : Char → Bool) (r : Char) (b : Bool) (c : Char) (t : List Char) :
    collapseRuns p r b (c :: t) =
      if p c then
        (if b then collapseRuns p r true t else r :: collapseRuns p r true t)
      else c :: collapseRuns p r false t := rfl

theorem collapseRuns_head_not (p : Char → Bool) (r : Char) (l : List Char) :
    ∀ y, (collapseRuns p r true l).head? = some y → p y = false := by
  induction l with
  | nil => intro y h; simp [collapseRuns] at h
  | cons c t ih =>
    intro y h
    rw [collapseRuns_cons] at h
    by_cases hc : p c
    · rw [if_pos hc, if_pos rfl] at h
      exact ih y h
    · rw [if_neg hc] at h
      simp only [List.head?_cons, Option.some.injEq] at h
      subst h
      simpa using hc

theorem collapseRuns_chain' (p : Char → Bool) (r : Char) (l : List Char) :
    ∀ b : Bool,
      List.Chain' (fun a c => ¬(p a = true ∧ p c = true)) (collapseRuns p r b l) := by
  induction l with
  | nil => intro b; simp [collapseRuns]
  | cons c t ih =>
    intro b
    rw [collapseRuns_cons]
    by_cases hc : p c
    · rw [if_pos hc]
      cases b with
      | true => simpa using ih true
      | false =>
        simp only [Bool.false_eq_true, if_false]
        rw [List.chain'_cons']
        refine ⟨?_, ih true⟩
        intro y hy
        have := collapseRuns_head_not p r t y (Option.mem_def.mp hy)
        simp [this]
    · rw [if_neg hc]
      rw [List.chain'_cons']
      refine ⟨?_, ih false⟩
      intro y _
      simp [hc]

theorem collapseRuns_mem (p : Char → Bool) (r : Char) (l : List Char) :
    ∀ (b : Bool) (x : Char), x ∈ collapseRuns p r b l → x = r ∨ (x ∈ l ∧ p x = false) := by
  induction l with
  | nil => intro b x h; simp [collapseRuns] at h
  | cons c t ih =>
    intro b x h
    rw [collapseRuns_cons] at h
    by_cases hc : p c
    · rw [if_pos hc] at h
      cases b with
      | true =>
        rcases ih true x h with h' | ⟨hm, hp⟩
        · exact Or.inl h'
        · exact Or.inr ⟨List.mem_cons_of_mem _ hm, hp⟩
      | false =>
        simp only [Bool.false_eq_true, if_false, List.mem_cons] at h
        rcases h with rfl | h'
        · exact Or.inl rfl
        · rcases ih true x h' with h'' | ⟨hm, hp⟩
          · exact Or.inl h''
          · exact Or.inr ⟨List.mem_cons_of_mem _ hm, hp⟩
    · rw [if_neg hc] at h
      rcases List.mem_cons.mp h with rfl | h'
      · exact Or.inr ⟨List.mem_cons_self _ _, by simpa using hc⟩
      · rcases ih false x h' with h'' | ⟨hm, hp⟩
        · exact Or.inl h''
        · exact Or.inr ⟨List.mem_cons_of_mem _ hm, hp⟩

theorem collapseRuns_fix (p : Char → Bool) (r : Char) (l : List Char) :
    ∀ b : Bool,
      List.Chain' (fun a c => ¬(p a = true ∧ p c = true)) l →
      (∀ x ∈ l, p x = true → x = r) →
      (b = true → ∀ y, l.head? = some y → p y = false) →
      collapseRuns p r b l = l := by
  induction l with
  | nil => intro b _ _ _; rfl
  | cons c t ih =>
    intro b hch hall hb
    rw [collapseRuns_cons]
    by_cases hc : p c
    · cases b with
      | true => exact absurd (hb rfl c rfl) (by simp [hc])
      | false =>
        rw [if_pos hc]
        simp only [Bool.false_eq_true, if_false]
        have hcr : c = r := hall c (List.mem_cons_self _ _) hc
        have hrec : collapseRuns p r true t = t := by
          apply ih true hch.tail (fun x hx => hall x (List.mem_cons_of_mem _ hx))
          intro _ y hy
          have := (List.chain'_cons'.mp hch).1 y (Option.mem_def.mpr hy)
          by_cases hy' : p y
          · exact absurd ⟨hc, hy'⟩ this
          · simpa using hy'
        rw [hrec, hcr]
    · rw [if_neg hc]
      rw [ih false hch.tail (fun x hx => hall x (List.mem_cons_of_mem _ hx))
        (fun h => absurd h (by simp))]

theorem dropWhile_eq_self_of_head (p : Char → Bool) (l : List Char)
    (h : ∀ y, l.head? = some y → p y = false) : l.dropWhile p = l := by
  cases l with
  | nil => rfl
  | cons c t =>
    rw [List.dropWhile_cons, if_neg (by simp [h c rfl])]

theorem head?_dropWhile_not (p : Char → Bool) (l : List Char) :
    ∀ y, (l.dropWhile p).head? = some y → p y = false := by
  induction l with
  | nil => intro y h; simp [List.dropWhile] at h
  | cons c t ih =>
    intro y h
    by_cases hc : p c
    · rw [List.dropWhile_cons, if_pos hc] at h; exact ih y h
    · rw [List.dropWhile_cons, if_neg hc] at h
      simp only [List.head?_cons, Option.some.injEq] at h
      subst h
      simpa using hc

theorem pyStrip_eq_self (l : List Char) (h : ∀ x ∈ l, pySpace x = false) : pyStrip l = l := by
  unfold pyStrip
  rw [dropWhile_eq_self_of_head _ _ (fun y hy => h y (List.mem_of_mem_head? (Option.mem_def.mpr hy)))]
  rw [dropWhile_eq_self_of_head _ _ (fun y hy => h y (by
    have := List.mem_of_mem_head? (Option.mem_def.mpr hy)
    exact List.mem_reverse.mp this))]
  exact List.reverse_reverse l

theorem map_fix (f : Char → Char) (l : List Char) (h : ∀ x ∈ l, f x = x) : l.map f = l := by
  induction l with
  | nil => rfl
  | cons c t ih =>
    rw [List.map_cons, h c (List.mem_cons_self _ _),
      ih (fun x hx => h x (List.mem_cons_of_mem _ hx))]

theorem chain'_imp_mem {R S : Char → Char → Prop} (l : List Char)
    (h : List.Chain' R l) (hmem : ∀ a ∈ l, ∀ b ∈ l, R a b → S a b) :
    List.Chain' S l := by
  induction l with
  | nil => simp
  | cons c t ih =>
    rw [List.chain'_cons'] at h ⊢
    refine ⟨?_, ih h.2 (fun a ha b hb => hmem a (List.mem_cons_of_mem _ ha)
      b (List.mem_cons_of_mem _ hb))⟩
    intro y hy
    have hyl : y ∈ c :: t :=
      List.mem_cons_of_mem _ (List.mem_of_mem_head? hy)
    exact hmem c (List.mem_cons_self _ _) y hyl (h.1 y hy)

theorem chain'_dropWhile {R : Char → Char → Prop} (p : Char → Bool) (l : List Char)
    (h : List.Chain' R l) : List.Chain' R (l.dropWhile p) := by
  induction l with
  | nil => simp
  | cons c t ih =>
    rw [List.dropWhile_cons]
    by_cases hc : p c
    · rw [if_pos hc]; exact ih h.tail
    · rw [if_neg hc]; exact h

theorem chain'_reverse_noDD (l : List Char)
    (h : List.Chain' (fun a b => ¬(a = '-' ∧ b = '-')) l) :
    List.Chain' (fun a b => ¬(a = '-' ∧ b = '-')) l.reverse := by
  rw [List.chain'_reverse]
  exact h.imp (fun a b hab => fun hc => hab ⟨hc.2, hc.1⟩)

theorem chain'_stripDashes (l : List Char)
    (h : List.Chain' (fun a b => ¬(a = '-' ∧ b = '-')) l) :
    List.Chain' (fun a b => ¬(a = '-' ∧ b = '-')) (stripDashes l) := by
  unfold stripDashes
  exact chain'_reverse_noDD _ (chain'_dropWhile _ _ (chain'_reverse_noDD _ (chain'_dropWhile _ _ h)))

theorem mem_stripDashes (x : Char) (l : List Char) (h : x ∈ stripDashes l) : x ∈ l := by
  unfold stripDashes at h
  rw [List.mem_reverse] at h
  have h2 := (List.dropWhile_suffix _).subset h
  rw [List.mem_reverse] at h2
  exact (List.dropWhile_suffix _).subset h2

theorem stripDashes_head_not (l : List Char) :
    ∀ y, (stripDashes l).head? = some y → y ≠ '-' := by
  intro y h
  unfold stripDashes at h
  rw [List.head?_reverse] at h
  obtain ⟨u, hu⟩ := List.dropWhile_suffix (l := (l.dropWhile (· == '-')).reverse) (· == '-')
  have hne : (l.dropWhile (· == '-')).reverse.dropWhile (· == '-') ≠ [] := by
    intro hnil; rw [hnil] at h; simp at h
  have hlast : ((l.dropWhile (· == '-')).reverse).getLast? = some y := by
    rw [← hu, List.getLast?_append_of_ne_nil _ hne]
    exact h
  rw [List.getLast?_reverse] at hlast
  have := head?_dropWhile_not (· == '-') l y hlast
  simpa using this

theorem stripDashes_getLast_not (l : List Char) :
    ∀ y, (stripDashes l).getLast? = some y → y ≠ '-' := by
  intro y h
  unfold stripDashes at h
  rw [List.getLast?_reverse] at h
  have := head?_dropWhile_not (· == '-') (l.dropWhile (· == '-')).reverse y h
  simpa using this

theorem stripDashes_fix (l : List Char) (h1 : ∀ y, l.head? = some y → y ≠ '-')
    (h2 : ∀ y, l.getLast? = some y → y ≠ '-') : stripDashes l = l := by
  unfold stripDashes
  rw [dropWhile_eq_self_of_head _ l (fun y hy => by simp [h1 y hy])]
  rw [dropWhile_eq_self_of_head _ l.reverse (fun y hy => by
    rw [List.head?_reverse] at hy
    simp [h2 y hy])]
  exact List.reverse_reverse l

/-- Structural facts about `slugify`'s output: nonempty, all characters are
hyphen or (non-uppercase) ASCII alphanumerics fixed by `lower`, no two
adjacent hyphens, and no hyphen at either end. -/
theorem slugifyList_spec (l : List Char) :
    slugifyList l ≠ [] ∧
    (∀ x ∈ slugifyList l, pySpace x = false ∧ pyLower x = x ∧
      (x = '-' ∨ isAsciiAlnum x = true)) ∧
    List.Chain' (fun a b => ¬(a = '-' ∧ b = '-')) (slugifyList l) ∧
    (∀ y, (slugifyList l).head? = some y → y ≠ '-') ∧
    (∀ y, (slugifyList l).getLast? = some y → y ≠ '-') := by
  unfold slugifyList
  set t1 := (pyStrip l).map pyLower with ht1
  set t2 := collapseRuns (fun c => !(isAsciiAlnum c)) '-' false t1 with ht2
  set t3 := collapseRuns (fun c => c == '-') '-' false t2 with ht3
  set t4 := stripDashes t3 with ht4
  by_cases hempty : t4.isEmpty
  · simp only [hempty, if_true]
    refine ⟨by simp, ?_, ?_, ?_, ?_⟩
    · intro x hx
      rcases List.mem_cons.mp hx with rfl | hx'
      · exact ⟨by decide, by decide, by decide⟩
      · rcases List.mem_cons.mp hx' with rfl | hx''
        · exact ⟨by decide, by decide, by decide⟩
        · simp at hx''
    · simp only [List.chain'_cons, List.chain'_singleton, and_true]
      decide
    · intro y hy; simp only [List.head?_cons, Option.some.injEq] at hy; subst hy; decide
    · intro y hy; simp only [List.getLast?_cons_cons, List.getLast?_singleton,
        Option.some.injEq] at hy; subst hy; decide
  · simp only [hempty, if_false]
    have hmem : ∀ x ∈ t4, pySpace x = false ∧ pyLower x = x ∧
        (x = '-' ∨ isAsciiAlnum x = true) := by
      intro x hx
      have hx3 := mem_stripDashes x t3 hx
      rcases collapseRuns_mem _ _ t2 false x hx3 with rfl | ⟨hx2, _⟩
      · exact ⟨by decide, by decide, Or.inl rfl⟩
      · rcases collapseRuns_mem _ _ t1 false x hx2 with rfl | ⟨hx1, hpx⟩
        · exact ⟨by decide, by decide, Or.inl rfl⟩
        · have halnum : isAsciiAlnum x = true := by
            cases hxa : isAsciiAlnum x
            · rw [hxa] at hpx; simp at hpx
            · rfl
          obtain ⟨y, _, rfl⟩ := List.mem_map.mp hx1
          exact ⟨alnum_not_space _ halnum, pyLower_idem y, Or.inr halnum⟩
    refine ⟨by simpa [List.isEmpty_iff] using hempty, hmem, ?_, ?_, ?_⟩
    · apply chain'_stripDashes
      have hch := collapseRuns_chain' (fun c => c == '-') '-' t2 false
      exact hch.imp (fun a b hab => fun hc => hab (by simp [hc.1, hc.2]))
    · exact stripDashes_head_not t3
    · exact stripDashes_getLast_not t3

/-- `slugify`'s output is a fixed point of `slugifyList`. -/
theorem slugifyList_idem (l : List Char) :
    slugifyList (slugifyList l) = slugifyList l := by
  obtain ⟨hne, hmem, hchain, hhead, hlast⟩ := slugifyList_spec l
  set out := slugifyList l with hout
  show slugifyList out = out
  have h1 : pyStrip out = out := pyStrip_eq_self out (fun x hx => (hmem x hx).1)
  have h2 : out.map pyLower = out := map_fix _ _ (fun x hx => (hmem x hx).2.1)
  have h3 : collapseRuns (fun c => !(isAsciiAlnum c)) '-' false out = out := by
    apply collapseRuns_fix _ _ _ false
    · apply chain'_imp_mem out hchain
      intro a ha b hb hab ⟨hpa, hpb⟩
      have ha' : a = '-' := by
        rcases (hmem a ha).2.2 with h' | h'
        · exact h'
        · rw [h'] at hpa; simp at hpa
      have hb' : b = '-' := by
        rcases (hmem b hb).2.2 with h' | h'
        · exact h'
        · rw [h'] at hpb; simp at hpb
      exact hab ⟨ha', hb'⟩
    · intro x hx hpx
      rcases (hmem x hx).2.2 with h' | h'
      · exact h'
      · rw [h'] at hpx; simp at hpx
    · intro h; exact absurd h (by simp)
  have h4 : collapseRuns (fun c => c == '-') '-' false out = out := by
    apply collapseRuns_fix _ _ _ false
    · exact hchain.imp (fun a b hab => fun hc => hab (by simp_all))
    · intro x _ hpx; simpa using hpx
    · intro h; exact absurd h (by simp)
  have h5 : stripDashes out = out := stripDashes_fix out hhead hlast
  have h6 : out.isEmpty = false := by
    cases hout2 : out.isEmpty
    · rfl
    · exact absurd (List.isEmpty_iff.mp hout2) hne
  simp only [slugifyList, h1, h2, h3, h4, h5, h6, Bool.false_eq_true, if_false]


theorem chain'_reverse_sym {p : Char → Bool} (l : List Char)
    (h : List.Chain' (fun a b => ¬(p a = true ∧ p b = true)) l) :
    List.Chain' (fun a b => ¬(p a = true ∧ p b = true)) l.reverse := by
  rw [List.chain'_reverse]
  exact h.imp (fun a b hab => fun hc => hab ⟨hc.2, hc.1⟩)

theorem chain'_pyStrip {p : Char → Bool} (l : List Char)
    (h : List.Chain' (fun a b => ¬(p a = true ∧ p b = true)) l) :
    List.Chain' (fun a b => ¬(p a = true ∧ p b = true)) (pyStrip l) := by
  unfold pyStrip
  exact chain'_reverse_sym _ (chain'_dropWhile _ _ (chain'_reverse_sym _ (chain'_dropWhile _ _ h)))

/-- The final two steps of `clean_script_text` (whitespace normalization and
terminal-punctuation enforcement) establish the output contract, whatever the
intermediate text `t` is. -/
theorem cleanInvariant_final (t : List Char) :
    cleanInvariant ⟨ensureTerminal (pyStrip (collapseRuns pySpace ' ' false t))⟩ := by
  set u := pyStrip (collapseRuns pySpace ' ' false t) with hu
  have hchain : List.Chain' (fun a b => ¬(pySpace a = true ∧ pySpace b = true)) u :=
    chain'_pyStrip _ (collapseRuns_chain' pySpace ' ' t false)
  unfold ensureTerminal
  cases hlast : u.getLast? with
  | none =>
    exact Or.inl (List.getLast?_eq_none_iff.mp hlast)
  | some c =>
    dsimp only
    by_cases hc : decide (c ∈ ['.', '!', '?']) = true
    · rw [if_pos hc]
      exact Or.inr ⟨⟨c, hlast, by simpa using of_decide_eq_true hc⟩, hchain⟩
    · rw [if_neg hc]
      refine Or.inr ⟨⟨'.', by simp, Or.inl rfl⟩, ?_⟩
      rw [List.chain'_append]
      refine ⟨hchain, List.chain'_singleton _, ?_⟩
      intro x _ y hy
      simp only [List.head?_cons, Option.mem_def, Option.some.injEq] at hy
      subst hy
      intro hcon
      exact absurd hcon.2 (by decide)

/-- C10 core fact: `clean_script_text` returns the empty string or a string
ending in `.`, `!` or `?` with no two consecutive whitespace characters. -/
theorem clean_script_text_invariant (s : String) : cleanInvariant (clean_script_text s) := by
  show cleanInvariant ⟨cleanList s.data⟩
  dsimp only [cleanList]
  by_cases he : (collapseRuns pySpace ' ' false (pyStrip s.data)).isEmpty
  · rw [if_pos he]
    exact Or.inl rfl
  · rw [if_neg he]
    exact cleanInvariant_final _
theorem clean_ai_style_text_invariant (mid : String → String) (s : String) :
    cleanInvariant (clean_ai_style_text mid s) := by
  unfold clean_ai_style_text
  by_cases h : clean_script_text s = ""
  · rw [if_pos h, h]
    exact Or.inl rfl
  · rw [if_neg h]
    exact clean_script_text_invariant _

theorem aiPolishScript_invariant (mid : String → String) (enabled : Bool)
    (resp : Option AiResponse) (gh gc : String → Bool) (accepted : Bool)
    (script : ScriptT)
    (h : cleanInvariant script.hook ∧ cleanInvariant script.body ∧ cleanInvariant script.cta) :
    cleanInvariant (aiPolishScript mid enabled resp gh gc accepted script).hook ∧
    cleanInvariant (aiPolishScript mid enabled resp gh gc accepted script).body ∧
    cleanInvariant (aiPolishScript mid enabled resp gh gc accepted script).cta := by
  unfold aiPolishScript
  by_cases hen : !enabled
  · rw [if_pos hen]; exact h
  · rw [if_neg hen]
    cases resp with
    | none => exact h
    | some r =>
      dsimp only
      split
      · split <;> split <;>
          exact ⟨clean_ai_style_text_invariant _ _, clean_ai_style_text_invariant _ _,
            clean_ai_style_text_invariant _ _⟩
      · exact h
theorem scriptPipeline_invariant (mid : String → String) (raw : ScriptT)
    (aiEnabled : Bool) (aiResp : Option AiResponse)
    (genericHook genericCta : String → Bool) (aiAccepted : Bool)
    (aiCta : Option String) (hookGuard : Bool) (guardHookText : String)
    (ctaGuard : Bool) (guardCtaText : String) :
    cleanInvariant (scriptPipeline mid raw aiEnabled aiResp genericHook genericCta
      aiAccepted aiCta hookGuard guardHookText ctaGuard guardCtaText).hook ∧
    cleanInvariant (scriptPipeline mid raw aiEnabled aiResp genericHook genericCta
      aiAccepted aiCta hookGuard guardHookText ctaGuard guardCtaText).body ∧
    cleanInvariant (scriptPipeline mid raw aiEnabled aiResp genericHook genericCta
      aiAccepted aiCta hookGuard guardHookText ctaGuard guardCtaText).cta := by
  have h1 := aiPolishScript_invariant mid aiEnabled aiResp genericHook genericCta aiAccepted
    ⟨clean_script_text raw.hook, clean_script_text raw.body, clean_script_text raw.cta⟩
    ⟨clean_script_text_invariant _, clean_script_text_invariant _,
      clean_script_text_invariant _⟩
  unfold scriptPipeline
  dsimp only
  split_ifs <;> dsimp only <;>
    exact ⟨by first | exact clean_script_text_invariant _ | exact h1.1,
      h1.2.1, clean_script_text_invariant _⟩

theorem jval_eval_checks :
    jeqPrim (.str "x") (.str "x") = true ∧
    jeqPrim (.arr []) (.str "x") = false ∧
    jget (.obj [("k", .str "v")]) "k" = some (.str "v") ∧
    pyStr (.num 3) = "3" ∧ pyStr (.str "s") = "s" :=
  ⟨rfl, rfl, rfl, rfl, rfl⟩

theorem jeqPrim_str_iff (a : JVal) (s : String) : jeqPrim a (.str s) = true ↔ a = .str s := by
  cases a <;> simp [jeqPrim]

/-- Any atom accepted by `minimal_validate` stores in `script_id` exactly the
SHA-256 of the packed stripped script fields. -/
theorem validate_ok_char (atom : JVal) (msg : String)
    (hv : minimal_validate atom = some (true, msg)) :
    ∃ h b c : String,
      pyStripAttr (jgetD (jgetD atom "script" .null) "hook" (.str "")) = some h ∧
      pyStripAttr (jgetD (jgetD atom "script" .null) "body" (.str "")) = some b ∧
      pyStripAttr (jgetD (jgetD atom "script" .null) "cta" (.str "")) = some c ∧
      jgetD atom "script_id" .null =
        .str (sha256_text (h ++ "\n" ++ b ++ "\n" ++ c ++ "\n")) := by
  unfold minimal_validate at hv
  split at hv
  · simp at hv
  · split at hv
    · simp at hv
    · split at hv
      · simp at hv
      · split at hv
        · simp at hv
        · split at hv
          · simp at hv
          · split at hv
            · simp at hv
            · split at hv
              · next h b c hh hb hc =>
                split at hv
                · simp at hv
                · next hjeq =>
                  rw [not_not] at hjeq
                  split at hv
                  · simp at hv
                  · split at hv
                    · simp at hv
                    · split at hv
                      · simp at hv
                      · exact ⟨h, b, c, hh, hb, hc, (jeqPrim_str_iff _ _).mp hjeq⟩
                      · simp at hv
              · simp at hv

theorem validAtomX_ok : minimal_validate validAtomX = some (true, "ok") := by
  decide

theorem find?_map_errors (kvs : List (String × JVal)) (v : JVal)
    (hfound : (kvs.find? (fun kv => kv.1 == "errors")).isSome) :
    (kvs.map (fun kv => if kv.1 == "errors" then (kv.1, v) else kv)).find?
      (fun kv => kv.1 == "errors") = some ("errors", v) := by
  induction kvs with
  | nil => simp at hfound
  | cons kv rest ih =>
    by_cases hk : kv.1 == "errors"
    · have he : kv.1 = "errors" := by simpa using hk
      simp [List.find?_cons, hk, he]
    · have hk' : (kv.1 == "errors") = false := by simpa using hk
      rw [List.find?_cons] at hfound
      simp only [hk'] at hfound
      simp only [List.map_cons, List.find?_cons]
      simpa [hk'] using ih hfound

theorem find?_map_key (key : String) (kvs : List (String × JVal)) (v : JVal)
    (hfound : (kvs.find? (fun kv => kv.1 == key)).isSome) :
    (kvs.map (fun kv => if kv.1 == key then (kv.1, v) else kv)).find?
      (fun kv => kv.1 == key) = some (key, v) := by
  induction kvs with
  | nil => simp at hfound
  | cons kv rest ih =>
    by_cases hk : kv.1 == key
    · have he : kv.1 = key := by simpa using hk
      simp [List.find?_cons, hk, he]
    · have hk' : (kv.1 == key) = false := by simpa using hk
      rw [List.find?_cons] at hfound
      simp only [hk'] at hfound
      simp only [List.map_cons, List.find?_cons]
      simpa [hk'] using ih hfound


end BGP

set_option maxRecDepth 100000

set_option maxHeartbeats 8000000

open BGP

/-- C1: `build_content_contract` produces
`content_id = "bgp-" + day + "-" + category + "-" + kind + "-" + fact_pk + "-" + hash12`
with `hash12 = sha256(canonical_base + "|" + script_id)[:12]` and
`canonical_base = "{day}-{category}-{kind}-{fact_pk}"` over the slugified
category, kind and fact pk; in particular, for day `2024-01-01`, category
`monster_tactic`, fact kind `creature`, pk `42` and any script_id `s`,
`content_id = "bgp-2024-01-01-monster-tactic-creature-42-" +
sha256("2024-01-01-monster-tactic-creature-42|" + s)[:12]`. -/
theorem c1_content_id_formula :
    (∀ (atom : CAtom) (sid : String) (script : ScriptT) (fact : Fact) (style : Style)
       (today day : String), atom.day = some day → day ≠ "" →
      (build_content_contract atom sid script fact style today).content_id =
        "bgp-" ++ day ++ "-" ++ slugify (pyOrStr atom.category "") ++ "-" ++
          slugify (pyOrStr fact.kind "unknown") ++ "-" ++ slugify (factPkStr fact) ++ "-" ++
          strTake (sha256_text
            (day ++ "-" ++ slugify (pyOrStr atom.category "") ++ "-" ++
              slugify (pyOrStr fact.kind "unknown") ++ "-" ++ slugify (factPkStr fact) ++
              "|" ++ sid)) 12) ∧
    (∀ (s : String) (script : ScriptT) (angle : Option String) (name doc : Option String)
       (style : Style) (today : String),
      (build_content_contract ⟨some "2024-01-01", some "monster_tactic", angle⟩ s script
          ⟨some "creature", some 42, name, doc⟩ style today).content_id =
        "bgp-2024-01-01-monster-tactic-creature-42-" ++
          strTake (sha256_text ("2024-01-01-monster-tactic-creature-42|" ++ s)) 12) := by
  constructor
  · intro atom sid script fact style today day hday hne
    simp only [build_content_contract, pyOrStr, hday, if_neg hne, strAppend_assoc]
  · intro s script angle name doc style today
    have h : slugify (pyOrStr (some "monster_tactic") "") = "monster-tactic" := by decide
    simp only [build_content_contract, pyOrStr, factPkStr]
    norm_num
    rfl

/-- C1 witness: the general formula instantiated at the scenario inputs. -/
theorem c1_content_id_formula_witness :
    (build_content_contract ⟨some "2024-01-01", some "monster_tactic", none⟩ "s"
        ⟨"h", "b", "c"⟩ ⟨some "creature", some 42, none, none⟩ ⟨none, none, none, none⟩
        "2099-01-01").content_id =
      "bgp-" ++ "2024-01-01" ++ "-" ++ slugify (pyOrStr (some "monster_tactic") "") ++ "-" ++
        slugify (pyOrStr (some "creature") "unknown") ++ "-" ++
        slugify (factPkStr ⟨some "creature", some 42, none, none⟩) ++ "-" ++
        strTake (sha256_text
          ("2024-01-01" ++ "-" ++ slugify (pyOrStr (some "monster_tactic") "") ++ "-" ++
            slugify (pyOrStr (some "creature") "unknown") ++ "-" ++
            slugify (factPkStr ⟨some "creature", some 42, none, none⟩) ++ "|" ++ "s")) 12 :=
  c1_content_id_formula.1 ⟨some "2024-01-01", some "monster_tactic", none⟩ "s"
    ⟨"h", "b", "c"⟩ ⟨some "creature", some 42, none, none⟩ ⟨none, none, none, none⟩
    "2099-01-01" "2024-01-01" rfl (by decide)

/-- C4 counterexample: at `content_id = "cid"`, segment `hook`, the code's
`voice_track_id` is `"vox-hook-" + sha256(segment_id + "|voice")[:10]`, not
`"vox-hook-" + sha256(content_id + "|" + "hook" + "|voice")[:10]` as the
claim states. -/
theorem c4_counterexample :
    ¬ ((buildSegment "cid" "hook" "t").voice_track_id =
        "vox-hook-" ++ strTake (sha256_text ("cid" ++ "|" ++ "hook" ++ "|voice")) 10) := by
  decide

/-- C4 (amended): `segment_id = "seg-" + key + "-" + sha256(content_id + "|" + key)[:10]`,
while `voice_track_id` and `visual_asset_id` are secondary hashes keyed off
`segment_id` (not off `content_id` directly):
`"vox-"/"img-" + key + "-" + sha256(segment_id + "|voice"/"|visual")[:10]`. -/
theorem c4_segment_id_derivation (cid key text : String) :
    (buildSegment cid key text).segment_id =
      "seg-" ++ key ++ "-" ++ strTake (sha256_text (cid ++ "|" ++ key)) 10 ∧
    (buildSegment cid key text).voice_track_id =
      "vox-" ++ key ++ "-" ++
        strTake (sha256_text ((buildSegment cid key text).segment_id ++ "|voice")) 10 ∧
    (buildSegment cid key text).visual_asset_id =
      "img-" ++ key ++ "-" ++
        strTake (sha256_text ((buildSegment cid key text).segment_id ++ "|visual")) 10 :=
  ⟨rfl, rfl, rfl⟩

/-- C5 counterexample: "changing any single script field changes script_id"
cannot hold universally — `script_id` is a 64-hex-character SHA-256 digest,
so infinitely many distinct hooks map into a finite digest space and two
distinct hooks must share a `script_id` (pigeonhole; nonconstructive). -/
theorem c5_counterexample :
    ¬ (∀ h h' b c : String, h ≠ h' → scriptIdOf h b c ≠ scriptIdOf h' b c) := by
  intro hall
  obtain ⟨m, n, hmn, heq⟩ :=
    Finite.exists_ne_map_eq_of_infinite
      (fun k : Nat =>
        (⟨sha256Nat (utf8Bytes (packScript ⟨List.replicate k 'a'⟩ "" "")),
          sha256Nat_lt _⟩ : Fin (2 ^ 256)))
  have hne : (⟨List.replicate m 'a'⟩ : String) ≠ ⟨List.replicate n 'a'⟩ := by
    intro hs
    apply hmn
    have := congrArg (fun s : String => s.data.length) hs
    simpa using this
  apply hall ⟨List.replicate m 'a'⟩ ⟨List.replicate n 'a'⟩ "" "" hne
  have hnat : sha256Nat (utf8Bytes (packScript ⟨List.replicate m 'a'⟩ "" "")) =
      sha256Nat (utf8Bytes (packScript ⟨List.replicate n 'a'⟩ "" "")) := by
    have := congrArg Fin.val heq
    simpa using this
  show sha256_text _ = sha256_text _
  unfold sha256_text sha256hexBytes
  rw [hnat]

theorem alphaBeta_script_id :
    scriptIdOf "Alpha strike." "B." "C." ≠ scriptIdOf "Beta strike." "B." "C." := by decide

theorem alphaBeta_canonical_hash :
    contractAlpha.canonical_hash ≠ contractBeta.canonical_hash := by decide

theorem alphaBeta_content_id :
    contractAlpha.content_id ≠ contractBeta.content_id := by decide

theorem alphaBeta_seg_hook :
    contractAlpha.segments.hook.segment_id ≠ contractBeta.segments.hook.segment_id := by decide

theorem alphaBeta_seg_body :
    contractAlpha.segments.body.segment_id ≠ contractBeta.segments.body.segment_id := by decide

theorem alphaBeta_seg_cta :
    contractAlpha.segments.cta.segment_id ≠ contractBeta.segments.cta.segment_id := by decide

theorem alphaBeta_vox_hook :
    contractAlpha.segments.hook.voice_track_id ≠ contractBeta.segments.hook.voice_track_id := by
  decide

theorem alphaBeta_vox_body :
    contractAlpha.segments.body.voice_track_id ≠ contractBeta.segments.body.voice_track_id := by
  decide

theorem alphaBeta_vox_cta :
    contractAlpha.segments.cta.voice_track_id ≠ contractBeta.segments.cta.voice_track_id := by
  decide

theorem alphaBeta_img_hook :
    contractAlpha.segments.hook.visual_asset_id ≠ contractBeta.segments.hook.visual_asset_id := by
  decide

theorem alphaBeta_img_body :
    contractAlpha.segments.body.visual_asset_id ≠ contractBeta.segments.body.visual_asset_id := by
  decide

theorem alphaBeta_img_cta :
    contractAlpha.segments.cta.visual_asset_id ≠ contractBeta.segments.cta.visual_asset_id := by
  decide

theorem alphaBeta_month_bundle :
    contractAlpha.month_bundle_id = contractBeta.month_bundle_id := by decide

/-- C5 (amended): changing any single script field changes the SHA-256
preimage of `script_id` (the packed `hook\nbody\ncta\n` determines the
stripped fields when they are newline-free), so `script_id` — and in turn
`canonical_hash`, `content_id` and the segment-family identifiers, whose hash
inputs embed it — changes except in the mathematically unavoidable case of a
SHA-256 (or truncated-hash) collision; `month_bundle_id` depends only on
`day[:7]` and never changes with the script.  At the concrete atom
(2024-01-01, monster_tactic, creature pk 42), changing the hook from
`"Alpha strike."` to `"Beta strike."` changes `script_id`, `canonical_hash`,
`content_id` and all nine segment-family identifiers while `month_bundle_id`
is unchanged. -/
theorem c5_sensitivity :
    (∀ h h' b b' c c' : String,
      '\n' ∉ (pyStripStr h).data → '\n' ∉ (pyStripStr h').data →
      '\n' ∉ (pyStripStr b).data → '\n' ∉ (pyStripStr b').data →
      packScript h b c = packScript h' b' c' →
      pyStripStr h = pyStripStr h' ∧ pyStripStr b = pyStripStr b' ∧
        pyStripStr c = pyStripStr c') ∧
    (∀ (atom : CAtom) (sid sid' : String) (script script' : ScriptT)
       (fact fact' : Fact) (style style' : Style) (today : String),
      (build_content_contract atom sid script fact style today).month_bundle_id =
        (build_content_contract atom sid' script' fact' style' today).month_bundle_id) ∧
    (scriptIdOf "Alpha strike." "B." "C." ≠ scriptIdOf "Beta strike." "B." "C." ∧
      contractAlpha.canonical_hash ≠ contractBeta.canonical_hash ∧
      contractAlpha.content_id ≠ contractBeta.content_id ∧
      contractAlpha.segments.hook.segment_id ≠ contractBeta.segments.hook.segment_id ∧
      contractAlpha.segments.body.segment_id ≠ contractBeta.segments.body.segment_id ∧
      contractAlpha.segments.cta.segment_id ≠ contractBeta.segments.cta.segment_id ∧
      contractAlpha.segments.hook.voice_track_id ≠ contractBeta.segments.hook.voice_track_id ∧
      contractAlpha.segments.body.voice_track_id ≠ contractBeta.segments.body.voice_track_id ∧
      contractAlpha.segments.cta.voice_track_id ≠ contractBeta.segments.cta.voice_track_id ∧
      contractAlpha.segments.hook.visual_asset_id ≠ contractBeta.segments.hook.visual_asset_id ∧
      contractAlpha.segments.body.visual_asset_id ≠ contractBeta.segments.body.visual_asset_id ∧
      contractAlpha.segments.cta.visual_asset_id ≠ contractBeta.segments.cta.visual_asset_id ∧
      contractAlpha.month_bundle_id = contractBeta.month_bundle_id) := by
  refine ⟨?_, ?_, ?_⟩
  · intro h h' b b' c c' hh hh' hb hb' hpack
    have hdata := congrArg String.data hpack
    simp only [packScript, strData_append, List.append_assoc, List.singleton_append] at hdata
    obtain ⟨h1, hdata2⟩ := append_newline_inj _ _ _ _ hh hh' hdata
    obtain ⟨h2, hdata3⟩ := append_newline_inj _ _ _ _ hb hb' hdata2
    have h3 : (pyStripStr c).data = (pyStripStr c').data := by
      simp at hdata3
      exact hdata3
    refine ⟨?_, ?_, ?_⟩
    · cases hps : pyStripStr h; cases hps' : pyStripStr h'
      simp_all
    · cases hps : pyStripStr b; cases hps' : pyStripStr b'
      simp_all
    · cases hps : pyStripStr c; cases hps' : pyStripStr c'
      simp_all
  · intro atom sid sid' script script' fact fact' style style' today
    rfl
  · exact ⟨alphaBeta_script_id, alphaBeta_canonical_hash, alphaBeta_content_id,
      alphaBeta_seg_hook, alphaBeta_seg_body, alphaBeta_seg_cta,
      alphaBeta_vox_hook, alphaBeta_vox_body, alphaBeta_vox_cta,
      alphaBeta_img_hook, alphaBeta_img_body, alphaBeta_img_cta,
      alphaBeta_month_bundle⟩

/-- C5 witness: the preimage-injectivity part instantiated at concrete
newline-free scripts. -/
theorem c5_sensitivity_witness :
    pyStripStr "a" = pyStripStr "a" ∧ pyStripStr "x" = pyStripStr "x" ∧
      pyStripStr "y" = pyStripStr "y" :=
  c5_sensitivity.1 "a" "a" "x" "x" "y" "y" (by decide) (by decide) (by decide) (by decide) rfl


/-- C9: `slugify` is idempotent — for every string `s`,
`slugify(slugify(s)) = slugify(s)`; slugifying an already-slugified string
returns it unchanged. -/
theorem c9_slugify_idempotent (s : String) : slugify (slugify s) = slugify s :=
  congrArg String.mk (slugifyList_idem s.data)

/-- C10: for every input, `clean_script_text` returns either the empty string
or a non-empty string ending in `.`, `!` or `?` with no two consecutive
whitespace characters; and since every script field flowing through the
finalization pipeline of `write_script_from_fact.py:main` (cleaning, AI
polish, CTA re-cleaning, encounter guards) passes through `clean_script_text`
last, every stored script field satisfies the same invariant. -/
theorem c10_clean_script_invariant :
    (∀ s : String, cleanInvariant (clean_script_text s)) ∧
    (∀ (mid : String → String) (raw : ScriptT) (aiEnabled : Bool)
       (aiResp : Option AiResponse) (genericHook genericCta : String → Bool)
       (aiAccepted : Bool) (aiCta : Option String)
       (hookGuard : Bool) (guardHookText : String)
       (ctaGuard : Bool) (guardCtaText : String),
      cleanInvariant (scriptPipeline mid raw aiEnabled aiResp genericHook genericCta
        aiAccepted aiCta hookGuard guardHookText ctaGuard guardCtaText).hook ∧
      cleanInvariant (scriptPipeline mid raw aiEnabled aiResp genericHook genericCta
        aiAccepted aiCta hookGuard guardHookText ctaGuard guardCtaText).body ∧
      cleanInvariant (scriptPipeline mid raw aiEnabled aiResp genericHook genericCta
        aiAccepted aiCta hookGuard guardHookText ctaGuard guardCtaText).cta) :=
  ⟨clean_script_text_invariant,
    fun mid raw aiEnabled aiResp gh gc acc aiCta hg ght cg gct =>
      scriptPipeline_invariant mid raw aiEnabled aiResp gh gc acc aiCta hg ght cg gct⟩

/-- C6 (stated over the embedding; claim theorem): an atom passing
`minimal_validate` stores `script_id = sha256(hook.strip + "\n" + body.strip
+ "\n" + cta.strip + "\n")`, and an atom whose stored `script_id` differs
from that recomputed hash never validates successfully. -/
theorem c6_script_id_roundtrip :
    (∀ (atom : JVal) (msg : String), minimal_validate atom = some (true, msg) →
      ∃ h b c : String,
        pyStripAttr (jgetD (jgetD atom "script" .null) "hook" (.str "")) = some h ∧
        pyStripAttr (jgetD (jgetD atom "script" .null) "body" (.str "")) = some b ∧
        pyStripAttr (jgetD (jgetD atom "script" .null) "cta" (.str "")) = some c ∧
        jgetD atom "script_id" .null =
          .str (sha256_text (h ++ "\n" ++ b ++ "\n" ++ c ++ "\n"))) ∧
    (∀ (atom : JVal) (h b c : String),
      pyStripAttr (jgetD (jgetD atom "script" .null) "hook" (.str "")) = some h →
      pyStripAttr (jgetD (jgetD atom "script" .null) "body" (.str "")) = some b →
      pyStripAttr (jgetD (jgetD atom "script" .null) "cta" (.str "")) = some c →
      jgetD atom "script_id" .null ≠
        .str (sha256_text (h ++ "\n" ++ b ++ "\n" ++ c ++ "\n")) →
      ∀ msg, minimal_validate atom ≠ some (true, msg)) := by
  refine ⟨validate_ok_char, ?_⟩
  intro atom h b c hh hb hc hne msg hval
  obtain ⟨h', b', c', hh', hb', hc', heq⟩ := validate_ok_char atom msg hval
  rw [hh] at hh'
  rw [hb] at hb'
  rw [hc] at hc'
  cases hh'
  cases hb'
  cases hc'
  exact hne heq

/-- C6 witness: `validAtomX` validates and satisfies the round trip;
`corruptAtomX` (script_id `"deadbeef"`) never validates. -/
theorem c6_script_id_roundtrip_witness :
    (∃ h b c : String,
      pyStripAttr (jgetD (jgetD validAtomX "script" .null) "hook" (.str "")) = some h ∧
      pyStripAttr (jgetD (jgetD validAtomX "script" .null) "body" (.str "")) = some b ∧
      pyStripAttr (jgetD (jgetD validAtomX "script" .null) "cta" (.str "")) = some c ∧
      jgetD validAtomX "script_id" .null =
        .str (sha256_text (h ++ "\n" ++ b ++ "\n" ++ c ++ "\n"))) ∧
    (∀ msg, minimal_validate corruptAtomX ≠ some (true, msg)) :=
  ⟨c6_script_id_roundtrip.1 validAtomX "ok" (by decide),
   c6_script_id_roundtrip.2 corruptAtomX "H." "B." "C." rfl rfl rfl
     (fun contra => absurd (JVal.str.inj contra) (by decide))⟩

/-- C8: an atom with the nine other required keys but no `content` key fails
validation with exactly `"missing key: content"`, and the router appends a
structured error record carrying that message and moves the atom to the
failed state with exit code 2. -/
theorem c8_missing_content (atom : JVal) (now : String)
    (hkeys : ∀ k ∈ ["day", "created_at", "category", "angle", "style", "picks",
      "fact", "script", "script_id"], (jget atom k).isSome)
    (hcontent : jget atom "content" = none)
    (herr : jget atom "errors" = none ∨ ∃ xs, jget atom "errors" = some (.arr xs)) :
    minimal_validate atom = some (false, "missing key: content") ∧
    ∃ atom' : JVal, routeAtom atom now = RouteResult.failed atom' 2 ∧
      ∃ prev : List JVal, jget atom' "errors" =
        some (.arr (prev ++ [.obj [("at", .str now),
          ("error", .str "missing key: content")]])) := by
  have h1 := hkeys "day" (by simp)
  have h2 := hkeys "created_at" (by simp)
  have h3 := hkeys "category" (by simp)
  have h4 := hkeys "angle" (by simp)
  have h5 := hkeys "style" (by simp)
  have h6 := hkeys "picks" (by simp)
  have h7 := hkeys "fact" (by simp)
  have h8 := hkeys "script" (by simp)
  have h9 := hkeys "script_id" (by simp)
  have hfm : findMissing atom required_top = some "content" := by
    simp [findMissing, required_top, h1, h2, h3, h4, h5, h6, h7, h8, h9, hcontent]
  have hval : minimal_validate atom = some (false, "missing key: content") := by
    unfold minimal_validate
    rw [hfm]
    rfl
  refine ⟨hval, ?_⟩
  obtain ⟨kvs, rfl⟩ : ∃ kvs, atom = .obj kvs := by
    cases atom with
    | obj kvs => exact ⟨kvs, rfl⟩
    | null => simp [jget] at h1
    | bool b => simp [jget] at h1
    | num n => simp [jget] at h1
    | str s => simp [jget] at h1
    | arr xs => simp [jget] at h1
  unfold routeAtom
  rw [hval]
  rcases herr with hnone | ⟨xs, hsome⟩
  · refine ⟨.obj (kvs ++ [("errors", .arr [.obj [("at", .str now),
      ("error", .str "missing key: content")]])]), ?_, [], ?_⟩
    · unfold appendError
      rw [hnone]
    · have hfindnone : kvs.find? (fun kv => kv.1 == "errors") = none := by
        simp only [jget] at hnone
        exact Option.map_eq_none'.mp hnone


      show (((kvs ++ _).find? _).map _) = _
      rw [List.find?_append, hfindnone]
      simp
  · refine ⟨.obj (kvs.map (fun kv => if kv.1 == "errors" then
      (kv.1, .arr (xs ++ [.obj [("at", .str now),
        ("error", .str "missing key: content")]])) else kv)), ?_, xs, ?_⟩
    · unfold appendError
      rw [hsome]
    · have hfound : (kvs.find? (fun kv => kv.1 == "errors")).isSome := by
        simp only [jget] at hsome
        cases hf : kvs.find? (fun kv => kv.1 == "errors") with
        | none => rw [hf] at hsome; simp at hsome
        | some kv => rfl
      show (((kvs.map _).find? _).map _) = _
      rw [find?_map_errors _ _ hfound]
      rfl

/-- C8 witness: a concrete atom with only `content` missing is rejected with
exactly `"missing key: content"` and routed to failed with exit code 2. -/
theorem c8_missing_content_witness :
    minimal_validate (.obj [("day", .str "2024-01-01"), ("created_at", .str "t"),
      ("category", .str "monster_tactic"), ("angle", .str "a"), ("style", .obj []),
      ("picks", .obj []), ("fact", .obj []),
      ("script", .obj [("hook", .str "H."), ("body", .str "B."), ("cta", .str "C.")]),
      ("script_id", .str "x")]) = some (false, "missing key: content") ∧
    ∃ atom' : JVal, routeAtom (.obj [("day", .str "2024-01-01"), ("created_at", .str "t"),
      ("category", .str "monster_tactic"), ("angle", .str "a"), ("style", .obj []),
      ("picks", .obj []), ("fact", .obj []),
      ("script", .obj [("hook", .str "H."), ("body", .str "B."), ("cta", .str "C.")]),
      ("script_id", .str "x")]) "now" = RouteResult.failed atom' 2 ∧
      ∃ prev : List JVal, jget atom' "errors" =
        some (.arr (prev ++ [.obj [("at", .str "now"),
          ("error", .str "missing key: content")]])) :=
  c8_missing_content _ "now" (by intro k hk; fin_cases hk <;> rfl) rfl (Or.inl rfl)


/-- C2: with a duplicate in the registry (same publish_hash or same
non-empty content_id) and the override flag off, the uploader exits 6
before uploading, reports the prior video's URL on stderr, and leaves the
registry unchanged; with the override flag on and a successful upload, a
second record is appended and both remain in the registry. -/
theorem c2_duplicate_publish_guard :
    (∀ (atom : UAtom) (day vp vs : String) (registry : JVal)
       (uploadResult : Except String String) (now : String),
      (∃ item ∈ registryItems registry, isObj item = true ∧
        (jeqPrim (jgetD item "publish_hash" .null)
            (.str (build_publish_fingerprint atom day vp vs).1) = true ∨
          (pyStripStr (pyOrStr atom.content_id "") ≠ "" ∧
            jeqPrim (jgetD item "content_id" .null)
              (.str (pyStripStr (pyOrStr atom.content_id ""))) = true))) →
      ∃ prior out,
        duplicate_publish registry (build_publish_fingerprint atom day vp vs).1
          (pyStripStr (pyOrStr atom.content_id "")) = some prior ∧
        uploadMain atom day vp vs registry false uploadResult now = some out ∧
        out.exitCode = 6 ∧ out.exitCode ≠ 0 ∧ out.registry = registry ∧
        out.uploaded = false ∧
        out.stderrLines = [dupErrLine day (pyStripStr (pyOrStr atom.content_id ""))
          (build_publish_fingerprint atom day vp vs).1 (priorUrlOf prior), overrideHint]) ∧
    (∀ (atom : UAtom) (day vp vs : String) (registry : JVal) (items : List JVal)
       (prior : JVal) (vid now : String),
      jget registry "items" = some (.arr items) →
      prior ∈ items →
      vid ≠ "" →
      ∃ out,
        uploadMain atom day vp vs registry true (.ok vid) now = some out ∧
        out.exitCode = 0 ∧
        jget out.registry "items" = some (.arr (items ++
          [publishEntry now day (pyStripStr (pyOrStr atom.content_id ""))
            (build_publish_fingerprint atom day vp vs).1 vid vs vp
            (build_publish_fingerprint atom day vp vs).2])) ∧
        prior ∈ (items ++ [publishEntry now day (pyStripStr (pyOrStr atom.content_id ""))
            (build_publish_fingerprint atom day vp vs).1 vid vs vp
            (build_publish_fingerprint atom day vp vs).2]) ∧
        publishEntry now day (pyStripStr (pyOrStr atom.content_id ""))
            (build_publish_fingerprint atom day vp vs).1 vid vs vp
            (build_publish_fingerprint atom day vp vs).2 ∈
          (items ++ [publishEntry now day (pyStripStr (pyOrStr atom.content_id ""))
            (build_publish_fingerprint atom day vp vs).1 vid vs vp
            (build_publish_fingerprint atom day vp vs).2])) := by
  constructor
  · intro atom day vp vs registry uploadResult now hdup
    have hsome : (duplicate_publish registry (build_publish_fingerprint atom day vp vs).1
        (pyStripStr (pyOrStr atom.content_id ""))).isSome := by
      rw [duplicate_publish, List.find?_isSome]
      obtain ⟨item, hmem, hobj, hcond⟩ := hdup
      refine ⟨item, hmem, ?_⟩
      rw [Bool.and_eq_true, Bool.or_eq_true]
      refine ⟨hobj, ?_⟩
      rcases hcond with h | ⟨hne, h⟩
      · exact Or.inl h
      · exact Or.inr (by rw [Bool.and_eq_true]; exact ⟨by simpa using hne, h⟩)
    obtain ⟨prior, hprior⟩ := Option.isSome_iff_exists.mp hsome
    have hmain : uploadMain atom day vp vs registry false uploadResult now =
        some { exitCode := 6, registry := registry, uploaded := false,
               stderrLines := [dupErrLine day (pyStripStr (pyOrStr atom.content_id ""))
                 (build_publish_fingerprint atom day vp vs).1 (priorUrlOf prior),
                 overrideHint] } := by
      unfold uploadMain
      rw [hprior]
      rfl
    exact ⟨prior, _, hprior, hmain, rfl, by simp, rfl, rfl, rfl⟩
  · intro atom day vp vs registry items prior vid now hitems hprior hvid
    obtain ⟨kvs, rfl⟩ : ∃ kvs, registry = .obj kvs := by
      cases registry with
      | obj kvs => exact ⟨kvs, rfl⟩
      | null => simp [jget] at hitems
      | bool b => simp [jget] at hitems
      | num n => simp [jget] at hitems
      | str s => simp [jget] at hitems
      | arr xs => simp [jget] at hitems
    have hfound : (kvs.find? (fun kv => kv.1 == "items")).isSome := by
      simp only [jget] at hitems
      cases hf : kvs.find? (fun kv => kv.1 == "items") with
      | none => rw [hf] at hitems; simp at hitems
      | some kv => rfl
    have happend : setItemsAppend (.obj kvs)
        (publishEntry now day (pyStripStr (pyOrStr atom.content_id ""))
          (build_publish_fingerprint atom day vp vs).1 vid vs vp
          (build_publish_fingerprint atom day vp vs).2) =
        some (.obj (kvs.map (fun kv => if kv.1 == "items" then
          (kv.1, .arr (items ++ [publishEntry now day (pyStripStr (pyOrStr atom.content_id ""))
            (build_publish_fingerprint atom day vp vs).1 vid vs vp
            (build_publish_fingerprint atom day vp vs).2])) else kv))) := by
      unfold setItemsAppend
      rw [hitems]
    have hget : jget (.obj (kvs.map (fun kv => if kv.1 == "items" then
        (kv.1, .arr (items ++ [publishEntry now day (pyStripStr (pyOrStr atom.content_id ""))
          (build_publish_fingerprint atom day vp vs).1 vid vs vp
          (build_publish_fingerprint atom day vp vs).2])) else kv))) "items" =
        some (.arr (items ++ [publishEntry now day (pyStripStr (pyOrStr atom.content_id ""))
          (build_publish_fingerprint atom day vp vs).1 vid vs vp
          (build_publish_fingerprint atom day vp vs).2])) := by
      show (((kvs.map _).find? _).map _) = _
      rw [find?_map_key _ _ _ hfound]
      rfl
    unfold uploadMain
    cases hdup : duplicate_publish (.obj kvs) (build_publish_fingerprint atom day vp vs).1
        (pyStripStr (pyOrStr atom.content_id "")) with
    | some p =>
      dsimp only
      unfold uploadProceed
      dsimp only
      rw [if_neg hvid, happend]
      exact ⟨_, rfl, rfl, hget, List.mem_append_left _ hprior,
        List.mem_append_right _ (List.mem_singleton.mpr rfl)⟩
    | none =>
      unfold uploadProceed
      dsimp only
      rw [if_neg hvid, happend]
      exact ⟨_, rfl, rfl, hget, List.mem_append_left _ hprior,
        List.mem_append_right _ (List.mem_singleton.mpr rfl)⟩

/-- C2 witness: both guard branches at a concrete atom/registry. -/
theorem c2_duplicate_publish_guard_witness :
    (∃ prior out,
      duplicate_publish regX
        (build_publish_fingerprint uAtomX "2024-01-01" "v.mp4" "vsha").1
        (pyStripStr (pyOrStr uAtomX.content_id "")) = some prior ∧
      uploadMain uAtomX "2024-01-01" "v.mp4" "vsha" regX false (.ok "VY") "now" = some out ∧
      out.exitCode = 6 ∧ out.exitCode ≠ 0 ∧ out.registry = regX ∧ out.uploaded = false ∧
      out.stderrLines = [dupErrLine "2024-01-01" (pyStripStr (pyOrStr uAtomX.content_id ""))
        (build_publish_fingerprint uAtomX "2024-01-01" "v.mp4" "vsha").1 (priorUrlOf prior),
        overrideHint]) ∧
    (∃ out,
      uploadMain uAtomX "2024-01-01" "v.mp4" "vsha" regX true (.ok "VY") "now" = some out ∧
      out.exitCode = 0 ∧
      jget out.registry "items" = some (.arr ([regItemX] ++
        [publishEntry "now" "2024-01-01" (pyStripStr (pyOrStr uAtomX.content_id ""))
          (build_publish_fingerprint uAtomX "2024-01-01" "v.mp4" "vsha").1 "VY" "vsha" "v.mp4"
          (build_publish_fingerprint uAtomX "2024-01-01" "v.mp4" "vsha").2])) ∧
      regItemX ∈ ([regItemX] ++
        [publishEntry "now" "2024-01-01" (pyStripStr (pyOrStr uAtomX.content_id ""))
          (build_publish_fingerprint uAtomX "2024-01-01" "v.mp4" "vsha").1 "VY" "vsha" "v.mp4"
          (build_publish_fingerprint uAtomX "2024-01-01" "v.mp4" "vsha").2]) ∧
      publishEntry "now" "2024-01-01" (pyStripStr (pyOrStr uAtomX.content_id ""))
          (build_publish_fingerprint uAtomX "2024-01-01" "v.mp4" "vsha").1 "VY" "vsha" "v.mp4"
          (build_publish_fingerprint uAtomX "2024-01-01" "v.mp4" "vsha").2 ∈
        ([regItemX] ++
        [publishEntry "now" "2024-01-01" (pyStripStr (pyOrStr uAtomX.content_id ""))
          (build_publish_fingerprint uAtomX "2024-01-01" "v.mp4" "vsha").1 "VY" "vsha" "v.mp4"
          (build_publish_fingerprint uAtomX "2024-01-01" "v.mp4" "vsha").2])) :=
  ⟨c2_duplicate_publish_guard.1 uAtomX "2024-01-01" "v.mp4" "vsha" regX (.ok "VY") "now"
     ⟨regItemX, List.mem_singleton.mpr rfl, rfl, Or.inr ⟨by decide, rfl⟩⟩,
   c2_duplicate_publish_guard.2 uAtomX "2024-01-01" "v.mp4" "vsha" regX [regItemX]
     regItemX "VY" "now" rfl (List.mem_singleton.mpr rfl) (by decide)⟩


/-- C3 (code bug): `pick_creature.py` seeds with `"{day}|{cat}|creature"` as
the claim says, but `fill_picks.py:main` calls `random.seed()` with NO
argument, so its draw depends on OS entropy rather than on day and category:
two invocations over an unchanged candidate list can return different picks. -/
theorem c3_fill_picks_entropy_dependent :
    pickCreatureSeed "2024-01-01" "monster_tactic" =
      "2024-01-01|monster_tactic|creature" ∧
    ∃ (rng : Nat → Nat → Nat) (e1 e2 : Nat) (pks : List JVal),
      e1 ≠ e2 ∧ fillPicksPk rng e1 pks ≠ fillPicksPk rng e2 pks := by
  refine ⟨rfl, fun e _ => e, 0, 1, [.num 1, .num 2], by omega, ?_⟩
  intro h
  exact absurd (JVal.num.inj (Option.some.inj h)) (by decide)

/-- C7 (code bug): a successful `pick_creature.py` run writes the updated
atom OVER the creatures dataset file (the script re-binds `path` to the
dataset file before `atomic_write_json(path, atom)`), and the atom file is
left untouched: the dataset is not read-only during the run and the updated
atom is not written to the atom file under data/atoms/. -/
theorem c7_dataset_overwritten :
    (pickCreatureRun (fun _ _ => 0) (fun _ => false)
      "2024-01-01" c7AtomPath c7DatasetPath c7FS).1 = 0 ∧
    fsGet (pickCreatureRun (fun _ _ => 0) (fun _ => false)
      "2024-01-01" c7AtomPath c7DatasetPath c7FS).2 c7DatasetPath ≠ some c7Dataset ∧
    fsGet (pickCreatureRun (fun _ _ => 0) (fun _ => false)
      "2024-01-01" c7AtomPath c7DatasetPath c7FS).2 c7DatasetPath = some c7AtomAfter ∧
    fsGet (pickCreatureRun (fun _ _ => 0) (fun _ => false)
      "2024-01-01" c7AtomPath c7DatasetPath c7FS).2 c7AtomPath = some c7Atom := by
  refine ⟨rfl, ?_, rfl, rfl⟩
  intro h
  exact JVal.noConfusion (Option.some.inj h)
